import Mathlib

/-!
RAG chatbot backend: response cache, session store and query pipeline

A shallow embedding of the JavaScript sources

* `services/memorySessionManager.js` (class `MemorySessionManager`),
* `services/sessionManager.js` (class `SessionManager`, on Redis),
* `services/ragPipeline.js` (`RAGPipeline.processQuery`),
* `services/geminiService.js` (`GeminiService.generateResponse`),
* `server.js` (the `send-message` socket handler and the session endpoints),
* `routes/api.js` (the endpoint `POST /chat`),

followed by theorems about them.

Conventions of the embedding.

* A JavaScript `Map` is an insertion-ordered list of key/value pairs with
  unique keys (`JSMap`); `set` on a present key replaces the value in place,
  `set` on an absent key appends.
* `Date.now()` and `new Date()` are read from explicit arguments: every clock
  read of an operation is one `Int` argument (milliseconds since the epoch).
  `toISOString()` is an order-preserving injective rendering of that number, so
  the number itself is stored.
* `uuidv4()` is an explicit argument (the identifier the generator returns).
* `throw new Error(msg)` is `Except.error msg`; `null` is `Option.none`.
* Asynchronous functions are run to completion, one at a time.
* Services outside the repository (embedding, vector search, text generation,
  `crypto`, `String.prototype.toLowerCase`) are arguments.
* Redis is a key/value store with an expiry time per key; a command that the
  client rejects is an explicit argument (the error text).
-/

namespace RagChatbot

/-! ## JavaScript `Map` -/

/-- Insertion-ordered key/value store standing for a JavaScript `Map`. -/
structure JSMap (κ ν : Type) where
  entries : List (κ × ν)
deriving DecidableEq, Repr

namespace JSMap

variable {κ ν : Type} [DecidableEq κ]

/-- The value of `new Map()`. -/
def empty : JSMap κ ν := ⟨[]⟩

/-- Lookup in an entry list: the value of the first entry with key `k`. -/
def lookup (k : κ) : List (κ × ν) → Option ν
  | [] => none
  | (k', v) :: rest => if k' = k then some v else lookup k rest

/-- Replace the value at key `k` in place, or append a new entry at the end. -/
def insert (k : κ) (v : ν) : List (κ × ν) → List (κ × ν)
  | [] => [(k, v)]
  | (k', v') :: rest => if k' = k then (k, v) :: rest else (k', v') :: insert k v rest

/-- The method `Map.prototype.get`; `none` stands for `undefined`. -/
def get (m : JSMap κ ν) (k : κ) : Option ν := lookup k m.entries

/-- The method `Map.prototype.has`. -/
def has (m : JSMap κ ν) (k : κ) : Bool := (lookup k m.entries).isSome

/-- The method `Map.prototype.set`. -/
def set (m : JSMap κ ν) (k : κ) (v : ν) : JSMap κ ν := ⟨insert k v m.entries⟩

/-- The method `Map.prototype.delete`: whether the key was present, and the map without it. -/
def delete (m : JSMap κ ν) (k : κ) : Bool × JSMap κ ν :=
  (m.has k, ⟨m.entries.filter (fun e => !decide (e.1 = k))⟩)

/-- The method `Map.prototype.values`, as an array. -/
def values (m : JSMap κ ν) : List ν := m.entries.map Prod.snd

/-- The method `Map.prototype.size`. -/
def size (m : JSMap κ ν) : Nat := m.entries.length

/-- The constructor `new Map(iterable)`: the entries are `set` one after the other. -/
def ofEntries (es : List (κ × ν)) : JSMap κ ν :=
  es.foldl (fun m e => m.set e.1 e.2) empty

end JSMap

/-! ## Message normalisation and the cache key (`server.js` line 154, `routes/api.js` line 40) -/

/-- The code points removed by `String.prototype.trim`: ECMAScript `WhiteSpace` and
`LineTerminator`. -/
def isWhiteSpace (c : Char) : Bool :=
  c = '\t' || c = '\n' || c = '\x0b' || c = '\x0c' || c = '\r' || c = ' ' ||
  c = ' ' || c = ' ' || (0x2000 ≤ c.toNat && c.toNat ≤ 0x200A) ||
  c = ' ' || c = ' ' || c = ' ' || c = ' ' || c = '　' ||
  c = '﻿'

/-- The method `String.prototype.trim`: leading and trailing white space removed. -/
def trim (s : String) : String :=
  ⟨((s.data.dropWhile isWhiteSpace).reverse.dropWhile isWhiteSpace).reverse⟩

/-- The expression `message.toLowerCase().trim()`; the built-in `toLowerCase` is an argument. -/
def normalize (toLowerCase : String → String) (message : String) : String :=
  trim (toLowerCase message)

/-- The expression
`crypto.createHash('md5').update(message.toLowerCase().trim()).digest('hex')`;
the digest `md5hex` of the `crypto` module is an argument. -/
def messageHash (md5hex : String → String) (toLowerCase : String → String)
    (message : String) : String :=
  md5hex (normalize toLowerCase message)

/-- A sample case folding (ASCII letters only), used to run `normalize` on concrete
messages. -/
def asciiToLowerCase (s : String) : String := ⟨s.data.map Char.toLower⟩

/-! ## `MemorySessionManager` (`services/memorySessionManager.js`) -/

/-- One entry of a session history (`messageEntry`). -/
structure MessageEntry where
  id : String
  timestamp : Int
  userMessage : String
  botResponse : String
deriving DecidableEq, Repr

/-- The object stored per session (`sessionData`). -/
structure SessionData where
  sessionId : String
  createdAt : Int
  lastActivity : Int
  messages : List MessageEntry
deriving DecidableEq, Repr

/-- The object stored per query hash in the response cache. -/
structure CacheEntry where
  response : String
  timestamp : Int
deriving DecidableEq, Repr

/-- The two maps of a `MemorySessionManager` instance. -/
structure MemorySessionManager where
  sessions : JSMap String SessionData
  cache : JSMap String CacheEntry
deriving DecidableEq, Repr

namespace MemorySessionManager

/-- The constructor. -/
def new : MemorySessionManager := ⟨JSMap.empty, JSMap.empty⟩

/-- The method `createSession()`; `uuid` is what `uuidv4()` returns, `tCreated` and
`tActivity` are the two clock reads. -/
def createSession (self : MemorySessionManager) (uuid : String) (tCreated tActivity : Int) :
    String × MemorySessionManager :=
  let sessionId := uuid
  let sessionData : SessionData :=
    { sessionId := sessionId, createdAt := tCreated, lastActivity := tActivity, messages := [] }
  (sessionId, { self with sessions := self.sessions.set sessionId sessionData })

/-- The method `addMessage(sessionId, userMessage, botResponse)`; `uuid` is what `uuidv4()`
returns, `tEntry` and `tActivity` are the two clock reads. The state is returned in both
outcomes. -/
def addMessage (self : MemorySessionManager) (sessionId userMessage botResponse : String)
    (uuid : String) (tEntry tActivity : Int) : Except String String × MemorySessionManager :=
  match self.sessions.get sessionId with
  | none => (.error "Session not found", self)
  | some sessionData =>
    let messageEntry : MessageEntry :=
      { id := uuid, timestamp := tEntry, userMessage := userMessage, botResponse := botResponse }
    let sessionData1 := { sessionData with messages := sessionData.messages ++ [messageEntry] }
    let sessionData2 := { sessionData1 with lastActivity := tActivity }
    (.ok messageEntry.id, { self with sessions := self.sessions.set sessionId sessionData2 })

/-- The method `getSessionHistory(sessionId)`. -/
def getSessionHistory (self : MemorySessionManager) (sessionId : String) : Option SessionData :=
  self.sessions.get sessionId

/-- The method `clearSession(sessionId)`. -/
def clearSession (self : MemorySessionManager) (sessionId : String) :
    Bool × MemorySessionManager :=
  let r := self.sessions.delete sessionId
  (r.1, { self with sessions := r.2 })

/-- The method `cacheResponse(queryHash, response)`; `now` is `Date.now()`. -/
def cacheResponse (self : MemorySessionManager) (queryHash response : String) (now : Int) :
    MemorySessionManager :=
  { self with cache := self.cache.set queryHash { response := response, timestamp := now } }

/-- The method `getCachedResponse(queryHash)`; `now` is `Date.now()`. -/
def getCachedResponse (self : MemorySessionManager) (queryHash : String) (now : Int) :
    Option String :=
  match self.cache.get queryHash with
  | some cached => if now - cached.timestamp < 1800000 then some cached.response else none
  | none => none

end MemorySessionManager

/-! ## Retrieval results and the services outside the repository -/

/-- The payload stored with an indexed point (`qdrantService.js`, `addDocuments`). -/
structure Payload where
  title : String
  content : String
  url : String
  publishedAt : String
  source : String
deriving DecidableEq, Repr

/-- One match returned by the vector index. The similarity score is only copied by the
code, never computed with, and is kept as an integer (a fixed-point reading). -/
structure Article where
  payload : Payload
  score : Int
deriving DecidableEq, Repr

/-- One element of `relevantArticles` as returned to the caller. -/
structure Citation where
  title : String
  url : String
  score : Int
deriving DecidableEq, Repr

/-- A query vector. -/
abbrev Embedding := List Int

/-- The three remote services, as the functions the wrappers `createEmbeddings`,
`searchSimilar` and `model.generateContent(...).response.text()` compute; a rejected promise is
`Except.error` with the error message. -/
structure Services where
  createEmbeddings : List String → Except String (List Embedding)
  searchSimilar : Option Embedding → Nat → Except String (List Article)
  generateContent : String → Except String String

/-- The observable actions of one run, in the order they happen. -/
inductive Effect where
  | createEmbeddings (texts : List String)
  | searchSimilar (vector : Option Embedding) (limit : Nat)
  | generateContent (prompt : String)
  | getCachedResponse (queryHash : String)
  | cacheResponse (queryHash response : String)
  | addMessage (sessionId userMessage botResponse : String)
deriving DecidableEq, Repr

/-- Whether an action is a call to one of the three remote services. -/
def Effect.isServiceCall : Effect → Bool
  | .createEmbeddings _ => true
  | .searchSimilar _ _ => true
  | .generateContent _ => true
  | _ => false

/-! ## `GeminiService.generateResponse` (`services/geminiService.js`) -/

/-- The local `uniqueArticles` of `generateResponse`:
`Array.from(new Map(relevantArticles.map(a => [a.payload.title, a])).values()).slice(0, 4)`. -/
def groundingArticles (relevantArticles : List Article) : List Article :=
  ((JSMap.ofEntries (relevantArticles.map (fun a => (a.payload.title, a)))).values).take 4

/-- The template string of one article of the context; `i` is the array index. -/
def articleBlock (article : Article) (i : Nat) : String :=
  "Article " ++ toString (i + 1) ++ ":\nTitle: " ++ article.payload.title ++
  "\nContent: " ++ article.payload.content ++ "\nSource: " ++ article.payload.source

/-- The local `context` of `generateResponse`. -/
def buildContext (uniqueArticles : List Article) : String :=
  "\n\n".intercalate (uniqueArticles.enum.map (fun p => articleBlock p.2 p.1))

/-- The local `prompt` of `generateResponse`. -/
def buildPrompt (query context : String) : String :=
  "You are a professional news assistant. \n" ++
  "Based only on the following news articles, provide a clear and concise answer to the user's question. \n" ++
  "Use complete sentences. If the articles do not contain enough information, say \"I cannot find an answer in the provided articles.\"\n" ++
  "\nArticles:\n" ++ context ++ "\n\nQuestion:\n" ++ query ++ "\n\nAnswer:"

/-- The method `generateResponse(query, relevantArticles)`: the result of the generation
call on the prompt built from the grounding articles, and the call made. -/
def generateResponse (svc : Services) (query : String) (relevantArticles : List Article) :
    Except String String × List Effect :=
  let uniqueArticles := groundingArticles relevantArticles
  let context := buildContext uniqueArticles
  let prompt := buildPrompt query context
  (svc.generateContent prompt, [Effect.generateContent prompt])

/-! ## `RAGPipeline.processQuery` (`services/ragPipeline.js`) -/

/-- One iteration of the deduplication loop; the state is `(uniqueArticles, seenTitles)`. -/
def dedupStep (acc : List Article × List String) (article : Article) :
    List Article × List String :=
  if acc.2.contains article.payload.title then acc
  else (acc.1 ++ [article], acc.2 ++ [article.payload.title])

/-- The deduplication loop of `processQuery` (step 2a): the final `uniqueArticles`. -/
def uniqueByTitle (relevantArticles : List Article) : List Article :=
  (relevantArticles.foldl dedupStep ([], [])).1

/-- The arrow function mapping an article to its citation. -/
def toCitation (article : Article) : Citation :=
  { title := article.payload.title, url := article.payload.url, score := article.score }

/-- The object `processQuery` resolves to. -/
structure QueryResult where
  query : String
  response : String
  relevantArticles : List Citation
deriving DecidableEq, Repr

/-- The method `processQuery(userQuery)`; `isInitialized` is the field `this.isInitialized`.
Returns the outcome and the service calls made, in order. -/
def processQuery (svc : Services) (isInitialized : Bool) (userQuery : String) :
    Except String QueryResult × List Effect :=
  if !isInitialized then
    (.error "RAG pipeline not initialized. Call initializeWithNewsData() first.", [])
  else
    let e1 := Effect.createEmbeddings [userQuery]
    match svc.createEmbeddings [userQuery] with
    | .error err => (.error err, [e1])
    | .ok queryEmbeddings =>
      let queryVector := queryEmbeddings.head?
      let e2 := Effect.searchSimilar queryVector 5
      match svc.searchSimilar queryVector 5 with
      | .error err => (.error err, [e1, e2])
      | .ok relevantArticles =>
        let uniqueArticles := uniqueByTitle relevantArticles
        match generateResponse svc userQuery uniqueArticles with
        | (.error err, es) => (.error err, [e1, e2] ++ es)
        | (.ok response, es) =>
          (.ok { query := userQuery, response := response,
                 relevantArticles := uniqueArticles.map toCitation }, [e1, e2] ++ es)

/-! ## The `send-message` handler (`server.js`) -/

/-- The payload of a `bot-response` event (`loading` is `false` in all of them). -/
inductive BotResponse where
  | answer (message : String) (relevantArticles : List Citation) (timestamp : Int)
  | failure (error : String) (timestamp : Option Int)
deriving DecidableEq, Repr

/-- An event emitted to a room. -/
inductive Emitted where
  | botTyping (room : String) (typing : Bool)
  | botResponse (room : String) (payload : BotResponse)
deriving DecidableEq, Repr

/-- The module-level state of `server.js`: the flag `isRAGInitialized`, the field
`ragPipeline.isInitialized` and the session manager. -/
structure ServerState where
  isRAGInitialized : Bool
  pipelineInitialized : Bool
  sessionManager : MemorySessionManager
deriving DecidableEq, Repr

/-- What the surroundings supply to one run of the handler: the built-ins, the remote
services, the clock reads (cache lookup, cache write, the two of `addMessage`, the emitted
timestamp) and the identifier of the new message entry. -/
structure Surroundings where
  md5hex : String → String
  toLowerCase : String → String
  services : Services
  tLookup : Int
  tCache : Int
  tEntry : Int
  tActivity : Int
  tEmit : Int
  uuid : String

/-- JavaScript truthiness of a `string | null` value: `null` and the empty string are
falsy. -/
def truthy (v : Option String) : Option String :=
  match v with
  | some s => if s = "" then none else some s
  | none => none

/-- The part of the handler inside `try` up to the call of `addMessage`: the answer and the
citations (or the error thrown by the pipeline), the session manager afterwards and the actions
performed. -/
def answerOrCompute (env : Surroundings) (st : ServerState) (message : String) :
    Except String (String × List Citation) × MemorySessionManager × List Effect :=
  let messageHash := messageHash env.md5hex env.toLowerCase message
  let cachedResponse := st.sessionManager.getCachedResponse messageHash env.tLookup
  let e0 := Effect.getCachedResponse messageHash
  match truthy cachedResponse with
  | some cached => (.ok (cached, []), st.sessionManager, [e0])
  | none =>
    match processQuery env.services st.pipelineInitialized message with
    | (.error err, es) => (.error err, st.sessionManager, e0 :: es)
    | (.ok ragResult, es) =>
      (.ok (ragResult.response, ragResult.relevantArticles),
       st.sessionManager.cacheResponse messageHash ragResult.response env.tCache,
       e0 :: es ++ [Effect.cacheResponse messageHash ragResult.response])

/-- The error text of the `catch` block. -/
def genericError : String :=
  "Sorry, I encountered an error processing your message. Please try again."

/-- The handler of the `send-message` event for `data = { sessionId, message }`: the events
emitted to the room, the state afterwards and the actions performed. The destructuring of
`data` comes before the `try`; `data` is an object with the two string fields. -/
def sendMessage (env : Surroundings) (st : ServerState) (sessionId message : String) :
    List Emitted × ServerState × List Effect :=
  let typingOn := Emitted.botTyping sessionId true
  let typingOff := Emitted.botTyping sessionId false
  if !st.isRAGInitialized then
    ([typingOn,
      .botResponse sessionId
        (.failure "System is still initializing. Please try again in a moment." none),
      typingOff], st, [])
  else
    let failed := Emitted.botResponse sessionId (.failure genericError (some env.tEmit))
    match answerOrCompute env st message with
    | (.error _, sm, es) => ([typingOn, failed, typingOff], { st with sessionManager := sm }, es)
    | (.ok (botResponse, relevantArticles), sm, es) =>
      let e3 := Effect.addMessage sessionId message botResponse
      match sm.addMessage sessionId message botResponse env.uuid env.tEntry env.tActivity with
      | (.error _, sm1) =>
        ([typingOn, failed, typingOff], { st with sessionManager := sm1 }, es ++ [e3])
      | (.ok _, sm1) =>
        ([typingOn,
          .botResponse sessionId (.answer botResponse relevantArticles env.tEmit),
          typingOff], { st with sessionManager := sm1 }, es ++ [e3])

/-! ## Auxiliary definitions used in the statements -/

/-- The title of a match (`article.payload.title`). -/
def Article.title (article : Article) : String := article.payload.title

/-- The deduplication loop read as a recursion over the remaining input, `seen` being the
titles added to `seenTitles` so far. It is shown equal to the loop below
(`foldl_dedupStep`). -/
def firstSeen (seen : List String) : List Article → List Article
  | [] => []
  | article :: rest =>
    if seen.contains article.payload.title then firstSeen seen rest
    else article :: firstSeen (seen ++ [article.payload.title]) rest

/-- The arguments of one `addMessage` call on a fixed session: the two texts, the identifier
generated for the entry and the two clock reads. -/
structure Append where
  userMessage : String
  botResponse : String
  uuid : String
  tEntry : Int
  tActivity : Int
deriving DecidableEq, Repr

/-- The history entry an `addMessage` call with these arguments builds. -/
def Append.entry (a : Append) : MessageEntry :=
  { id := a.uuid, timestamp := a.tEntry, userMessage := a.userMessage,
    botResponse := a.botResponse }

/-- A sequence of `addMessage` calls on session `sessionId`, one after the other: the
outcomes of the calls and the final state. -/
def runAppends (self : MemorySessionManager) (sessionId : String) :
    List Append → List (Except String String) × MemorySessionManager
  | [] => ([], self)
  | a :: rest =>
    let r := self.addMessage sessionId a.userMessage a.botResponse a.uuid a.tEntry a.tActivity
    let rs := runAppends r.2 sessionId rest
    (r.1 :: rs.1, rs.2)

/-- A sequence of `cacheResponse` calls `(queryHash, response, now)`, one after the other. -/
def runCacheWrites (self : MemorySessionManager) (writes : List (String × String × Int)) :
    MemorySessionManager :=
  writes.foldl (fun s w => s.cacheResponse w.1 w.2.1 w.2.2) self

/-! ## A concrete run environment -/

/-- A match used in concrete runs. -/
def sampleArticle : Article :=
  { payload := { title := "A", content := "text", url := "http://a", publishedAt := "",
                 source := "wire" },
    score := 9 }

/-- Remote services that always succeed: one vector per text, one match, a fixed answer. -/
def sampleServices : Services :=
  { createEmbeddings := fun texts => .ok (texts.map (fun _ => [1, 2, 3])),
    searchSimilar := fun _ _ => .ok [sampleArticle],
    generateContent := fun _ => .ok "generated answer" }

/-- Concrete surroundings of one handler run: the cache is read at time 100. -/
def sampleSurroundings : Surroundings :=
  { md5hex := fun s => "md5:" ++ s, toLowerCase := asciiToLowerCase,
    services := sampleServices, tLookup := 100, tCache := 110, tEntry := 120,
    tActivity := 121, tEmit := 130, uuid := "m1" }

/-- A ready server with one session `s1` and the cache entry `response` written at time 50
under the key of the message `hello`. -/
def sampleState (response : String) : ServerState :=
  { isRAGInitialized := true, pipelineInitialized := true,
    sessionManager :=
      (MemorySessionManager.new.createSession "s1" 0 0).2.cacheResponse
        (messageHash sampleSurroundings.md5hex sampleSurroundings.toLowerCase "hello")
        response 50 }

/-! ## Further definitions used in the statements -/

/-- Well-formedness of a `JSMap`: no key occurs twice. Every `Map` of the program satisfies
it (`JSMap.wf_empty`, `JSMap.wf_set`, `JSMap.wf_delete`). -/
def JSMap.WF {κ ν : Type} (m : JSMap κ ν) : Prop := (m.entries.map Prod.fst).Nodup

instance {κ ν : Type} [DecidableEq κ] (m : JSMap κ ν) : Decidable m.WF :=
  inferInstanceAs (Decidable (m.entries.map Prod.fst).Nodup)

/-- Remote services for concrete runs in which one stage fails: the embedding call for
`stage = 0`, the vector search for `stage = 1`, the generation call for `stage = 2`, each with
the same error text; every other call succeeds as in `sampleServices`. -/
def servicesFailingAt (stage : Nat) : Services :=
  { createEmbeddings := fun texts =>
      if stage = 0 then .error "service unavailable" else sampleServices.createEmbeddings texts,
    searchSimilar := fun v limit =>
      if stage = 1 then .error "service unavailable" else sampleServices.searchSimilar v limit,
    generateContent := fun prompt =>
      if stage = 2 then .error "service unavailable" else sampleServices.generateContent prompt }

/-! ## The HTTP endpoints of `server.js` -/

/-- The JSON bodies the HTTP handlers send. -/
inductive ResponseBody where
  | error (error : String)
  | created (sessionId message : String)
  | history (session : SessionData)
  | info (message : String)
  | chat (message : String) (relevantArticles : List Citation) (timestamp : Int)
deriving DecidableEq, Repr

/-- A response: the status code (200 when `res.status` is not called) and the body. -/
structure HttpResponse where
  status : Nat
  body : ResponseBody
deriving DecidableEq, Repr

/-- The `try`/`catch` of `POST /api/session/new` around the awaited `createSession()`:
`outcome` is how that call ended, an error being the `message` of what it threw. -/
def sessionNewResponse (outcome : Except String String) : HttpResponse :=
  match outcome with
  | .ok sessionId => ⟨200, .created sessionId "Session created successfully"⟩
  | .error message => ⟨500, .error message⟩

/-- The `try`/`catch` of `GET /api/session/:sessionId/history` around the awaited
`getSessionHistory(sessionId)`. -/
def sessionHistoryResponse (outcome : Except String (Option SessionData)) : HttpResponse :=
  match outcome with
  | .ok none => ⟨404, .error "Session not found"⟩
  | .ok (some history) => ⟨200, .history history⟩
  | .error message => ⟨500, .error message⟩

/-- The `try`/`catch` of `DELETE /api/session/:sessionId` around the awaited
`clearSession(sessionId)`. -/
def sessionClearResponse (outcome : Except String Bool) : HttpResponse :=
  match outcome with
  | .ok _ => ⟨200, .info "Session cleared successfully"⟩
  | .error message => ⟨500, .error message⟩

/-- The endpoint `POST /api/session/new` of `server.js`, on its `MemorySessionManager`. -/
def postSessionNew (st : ServerState) (uuid : String) (tCreated tActivity : Int) :
    HttpResponse × ServerState :=
  let r := st.sessionManager.createSession uuid tCreated tActivity
  (sessionNewResponse (.ok r.1), { st with sessionManager := r.2 })

/-- The endpoint `GET /api/session/:sessionId/history` of `server.js`. -/
def getSessionHistoryRoute (st : ServerState) (sessionId : String) : HttpResponse :=
  sessionHistoryResponse (.ok (st.sessionManager.getSessionHistory sessionId))

/-- The endpoint `DELETE /api/session/:sessionId` of `server.js`. -/
def deleteSessionRoute (st : ServerState) (sessionId : String) : HttpResponse × ServerState :=
  let r := st.sessionManager.clearSession sessionId
  (sessionClearResponse (.ok r.1), { st with sessionManager := r.2 })

/-! ## `SessionManager` on Redis (`services/sessionManager.js`) -/

/-- The session object as `SessionManager` serialises it; `createSession` writes no
`lastActivity`. `JSON.parse` of `JSON.stringify` gives the object back, so the object stands
for its JSON text. -/
structure StoredSession where
  sessionId : String
  createdAt : Int
  lastActivity : Option Int
  messages : List MessageEntry
deriving DecidableEq, Repr

/-- A value stored with `SETEX`, and the server time (ms) at which its key expires. -/
structure Expiring (α : Type) where
  value : α
  expiresAt : Int
deriving DecidableEq, Repr

/-- The Redis keys the class uses: `session:<sessionId>`, indexed here by `sessionId`, and
`cache:response:<queryHash>`, indexed by `queryHash`. -/
structure SessionManager where
  sessionKeys : JSMap String (Expiring StoredSession)
  cacheKeys : JSMap String (Expiring String)
deriving DecidableEq, Repr

namespace SessionManager

/-- The field `sessionTTL`, in seconds. -/
def sessionTTL : Int := 3600

/-- What `GET` returns at server time `now` for a key holding `e`: the value while the key
has not expired. -/
def live {α : Type} (e : Option (Expiring α)) (now : Int) : Option α :=
  match e with
  | some x => if now < x.expiresAt then some x.value else none
  | none => none

/-- The method `createSession()`; `now` is the server time of the `SETEX`, `fault` the error
the command is rejected with, if it is. -/
def createSession (self : SessionManager) (uuid : String) (tCreated now : Int)
    (fault : Option String) : Except String String × SessionManager :=
  let sessionData : StoredSession :=
    { sessionId := uuid, createdAt := tCreated, lastActivity := none, messages := [] }
  match fault with
  | some err => (.error err, self)
  | none =>
    (.ok uuid,
     { self with
       sessionKeys := self.sessionKeys.set uuid ⟨sessionData, now + sessionTTL * 1000⟩ })

/-- The method `addMessage(sessionId, userMessage, botResponse)`; `nowGet` and `nowSet` are
the server times of the `GET` and the `SETEX`, `faultGet` and `faultSet` the errors these
commands are rejected with, if they are. -/
def addMessage (self : SessionManager) (sessionId userMessage botResponse : String)
    (uuid : String) (tEntry tActivity nowGet nowSet : Int)
    (faultGet faultSet : Option String) : Except String String × SessionManager :=
  match faultGet with
  | some err => (.error err, self)
  | none =>
    match live (self.sessionKeys.get sessionId) nowGet with
    | none => (.error "Session not found", self)
    | some sessionData =>
      let messageEntry : MessageEntry :=
        { id := uuid, timestamp := tEntry, userMessage := userMessage,
          botResponse := botResponse }
      let sessionData1 : StoredSession :=
        { sessionId := sessionData.sessionId, createdAt := sessionData.createdAt,
          lastActivity := some tActivity,
          messages := sessionData.messages ++ [messageEntry] }
      match faultSet with
      | some err => (.error err, self)
      | none =>
        (.ok messageEntry.id,
         { self with
           sessionKeys :=
             self.sessionKeys.set sessionId ⟨sessionData1, nowSet + sessionTTL * 1000⟩ })

/-- The method `cacheResponse(queryHash, response)`: `SETEX` with 1800 seconds. -/
def cacheResponse (self : SessionManager) (queryHash response : String) (now : Int)
    (fault : Option String) : Except String Unit × SessionManager :=
  match fault with
  | some err => (.error err, self)
  | none =>
    (.ok (), { self with cacheKeys := self.cacheKeys.set queryHash ⟨response, now + 1800 * 1000⟩ })

/-- The method `getCachedResponse(queryHash)`. -/
def getCachedResponse (self : SessionManager) (queryHash : String) (now : Int)
    (fault : Option String) : Except String (Option String) :=
  match fault with
  | some err => .error err
  | none => .ok (live (self.cacheKeys.get queryHash) now)

end SessionManager

/-! ## The endpoint `POST /chat` (`routes/api.js`) -/

/-- The module-level state of `routes/api.js`. -/
structure ApiState where
  isRAGInitialized : Bool
  pipelineInitialized : Bool
  sessionManager : SessionManager
deriving DecidableEq, Repr

/-- What the surroundings supply to one run of `POST /chat`: the built-ins, the remote
services, the times of the Redis commands and of the clock reads, the identifier of the new
message entry, and for each Redis command the error it is rejected with, if it is. -/
structure ChatSurroundings where
  md5hex : String → String
  toLowerCase : String → String
  services : Services
  tLookup : Int
  tCache : Int
  tSessionGet : Int
  tEntry : Int
  tActivity : Int
  tSessionSet : Int
  tJson : Int
  uuid : String
  faultLookup : Option String
  faultCache : Option String
  faultSessionGet : Option String
  faultSessionSet : Option String

/-- The part of the `try` block from the cache lookup up to the call of `addMessage`: the
answer and the citations (or the error thrown), the session manager afterwards and the actions
performed. -/
def chatAnswerOrCompute (env : ChatSurroundings) (st : ApiState) (message : String) :
    Except String (String × List Citation) × SessionManager × List Effect :=
  let messageHash := messageHash env.md5hex env.toLowerCase message
  let e0 := Effect.getCachedResponse messageHash
  match st.sessionManager.getCachedResponse messageHash env.tLookup env.faultLookup with
  | .error err => (.error err, st.sessionManager, [e0])
  | .ok cached =>
    match truthy cached with
    | some botResponse => (.ok (botResponse, []), st.sessionManager, [e0])
    | none =>
      match processQuery env.services st.pipelineInitialized message with
      | (.error err, es) => (.error err, st.sessionManager, e0 :: es)
      | (.ok result, es) =>
        let e1 := Effect.cacheResponse messageHash result.response
        match st.sessionManager.cacheResponse messageHash result.response env.tCache
            env.faultCache with
        | (.error err, sm) => (.error err, sm, e0 :: es ++ [e1])
        | (.ok _, sm) =>
          (.ok (result.response, result.relevantArticles), sm, e0 :: es ++ [e1])

/-- The `try` block of the handler for `req.body = { sessionId, message }` (a missing field is
`none`): the response sent, or the error thrown, with the state afterwards and the actions
performed. -/
def chatBody (env : ChatSurroundings) (st : ApiState) (sessionId message : Option String) :
    Except String HttpResponse × ApiState × List Effect :=
  match truthy sessionId, truthy message with
  | some sessionId, some message =>
    if !st.isRAGInitialized then
      (.ok ⟨503, .error "System is initializing. Please try again later."⟩, st, [])
    else
      match chatAnswerOrCompute env st message with
      | (.error err, sm, es) => (.error err, { st with sessionManager := sm }, es)
      | (.ok (botResponse, relevantArticles), sm, es) =>
        let e3 := Effect.addMessage sessionId message botResponse
        match sm.addMessage sessionId message botResponse env.uuid env.tEntry env.tActivity
            env.tSessionGet env.tSessionSet env.faultSessionGet env.faultSessionSet with
        | (.error err, sm1) => (.error err, { st with sessionManager := sm1 }, es ++ [e3])
        | (.ok _, sm1) =>
          (.ok ⟨200, .chat botResponse relevantArticles env.tJson⟩,
           { st with sessionManager := sm1 }, es ++ [e3])
  | _, _ => (.ok ⟨400, .error "sessionId and message are required"⟩, st, [])

/-- The handler of `POST /chat`: the `try` block, and the `catch` block answering every error
with status 500 and a fixed text. -/
def chat (env : ChatSurroundings) (st : ApiState) (sessionId message : Option String) :
    HttpResponse × ApiState × List Effect :=
  match chatBody env st sessionId message with
  | (.ok response, st1, es) => (response, st1, es)
  | (.error _, st1, es) => (⟨500, .error "Internal server error"⟩, st1, es)

/-- Concrete surroundings of one run of `POST /chat`, no Redis command failing. -/
def sampleChatSurroundings : ChatSurroundings :=
  { md5hex := fun s => "md5:" ++ s, toLowerCase := asciiToLowerCase,
    services := sampleServices, tLookup := 100, tCache := 110, tSessionGet := 115,
    tEntry := 120, tActivity := 121, tSessionSet := 125, tJson := 130, uuid := "m1",
    faultLookup := none, faultCache := none, faultSessionGet := none,
    faultSessionSet := none }

/-- A ready `routes/api.js` whose Redis holds the session `s1`, created at time 0, and no
cached answer. -/
def sampleApiState : ApiState :=
  { isRAGInitialized := true, pipelineInitialized := true,
    sessionManager := ((⟨JSMap.empty, JSMap.empty⟩ : SessionManager).createSession
      "s1" 0 0 none).2 }

/-! ## What the `catch` block of the `send-message` handler catches -/

/-- The error that the `try` block of the `send-message` handler throws on a ready server,
if it throws: what `processQuery` threw, or else what `addMessage` threw (`getCachedResponse`
and `cacheResponse` of `MemorySessionManager` do not throw). -/
def sendMessageThrown (env : Surroundings) (st : ServerState) (sessionId message : String) :
    Option String :=
  match answerOrCompute env st message with
  | (.error err, _, _) => some err
  | (.ok (botResponse, _), sm, _) =>
    match sm.addMessage sessionId message botResponse env.uuid env.tEntry env.tActivity with
    | (.error err, _) => some err
    | (.ok _, _) => none

/-- A `bot-response` payload with its `timestamp` field removed. -/
def BotResponse.dropTimestamp : BotResponse → BotResponse
  | .answer message relevantArticles _ => .answer message relevantArticles 0
  | .failure error _ => .failure error none

/-- An emitted event with the `timestamp` field of its payload removed. -/
def Emitted.dropTimestamp : Emitted → Emitted
  | .botTyping room typing => .botTyping room typing
  | .botResponse room payload => .botResponse room payload.dropTimestamp

end RagChatbot

namespace RagChatbot

/-! ## Facts about `JSMap` -/

namespace JSMap

variable {κ ν : Type} [DecidableEq κ]

theorem lookup_insert_self (k : κ) (v : ν) (l : List (κ × ν)) :
    lookup k (insert k v l) = some v := by
  induction l with
  | nil => simp [insert, lookup]
  | cons e rest ih =>
    obtain ⟨k', v'⟩ := e
    by_cases h : k' = k
    · simp [insert, lookup, h]
    · simp [insert, lookup, h, ih]

theorem lookup_insert_ne {k k' : κ} (v : ν) (l : List (κ × ν)) (hne : k' ≠ k) :
    lookup k' (insert k v l) = lookup k' l := by
  induction l with
  | nil => simp [insert, lookup, Ne.symm hne]
  | cons e rest ih =>
    obtain ⟨k1, v1⟩ := e
    by_cases h : k1 = k
    · subst h
      simp [insert, lookup, Ne.symm hne]
    · by_cases h' : k1 = k'
      · subst h'
        simp [insert, lookup, h]
      · simp [insert, lookup, h, h', ih]

theorem lookup_filter_self (k : κ) (l : List (κ × ν)) :
    lookup k (l.filter (fun e => !decide (e.1 = k))) = none := by
  induction l with
  | nil => simp [lookup]
  | cons e rest ih =>
    obtain ⟨k1, v1⟩ := e
    by_cases h : k1 = k
    · simp [List.filter, h, ih]
    · simp [List.filter, h, lookup, ih]

theorem lookup_filter_ne {k k' : κ} (l : List (κ × ν)) (hne : k' ≠ k) :
    lookup k' (l.filter (fun e => !decide (e.1 = k))) = lookup k' l := by
  induction l with
  | nil => simp [lookup]
  | cons e rest ih =>
    obtain ⟨k1, v1⟩ := e
    by_cases h : k1 = k
    · subst h
      simp [List.filter, lookup, Ne.symm hne, ih]
    · by_cases h' : k1 = k'
      · subst h'
        simp [List.filter, h, lookup]
      · simp [List.filter, h, lookup, h', ih]

theorem get_set_self (m : JSMap κ ν) (k : κ) (v : ν) : (m.set k v).get k = some v :=
  lookup_insert_self k v m.entries

theorem get_set_ne (m : JSMap κ ν) {k k' : κ} (v : ν) (hne : k' ≠ k) :
    (m.set k v).get k' = m.get k' :=
  lookup_insert_ne v m.entries hne

theorem get_delete_self (m : JSMap κ ν) (k : κ) : (m.delete k).2.get k = none :=
  lookup_filter_self k m.entries

theorem get_delete_ne (m : JSMap κ ν) {k k' : κ} (hne : k' ≠ k) :
    (m.delete k).2.get k' = m.get k' :=
  lookup_filter_ne m.entries hne

end JSMap

/-! ## The cache key -/

theorem dropWhile_append_of_all {α : Type} (p : α → Bool) (pre rest : List α)
    (h : ∀ c ∈ pre, p c = true) : (pre ++ rest).dropWhile p = rest.dropWhile p := by
  induction pre with
  | nil => rfl
  | cons c cs ih =>
    have hc : p c = true := h c (List.mem_cons_self c cs)
    have hcs : ∀ d ∈ cs, p d = true := fun d hd => h d (List.mem_cons_of_mem c hd)
    simp [List.dropWhile, hc, ih hcs]

theorem dropWhile_append_of_exists {α : Type} (p : α → Bool) (s post : List α)
    (h : ∃ c ∈ s, p c = false) : (s ++ post).dropWhile p = s.dropWhile p ++ post := by
  induction s with
  | nil => simp at h
  | cons c cs ih =>
    cases hc : p c with
    | false => simp [List.dropWhile, hc]
    | true =>
      have h' : ∃ d ∈ cs, p d = false := by
        obtain ⟨d, hd, hpd⟩ := h
        rcases List.mem_cons.mp hd with rfl | hd'
        · rw [hc] at hpd
          cases hpd
        · exact ⟨d, hd', hpd⟩
      simp [List.dropWhile, hc, ih h']

theorem dropWhile_eq_nil_of_all {α : Type} (p : α → Bool) (s : List α)
    (h : ∀ c ∈ s, p c = true) : s.dropWhile p = [] := by
  have := dropWhile_append_of_all p s [] h
  simpa using this

/-- Padding a string with white space on both sides does not change what `trim` returns. -/
theorem trim_pad (pre s post : String) (hpre : ∀ c ∈ pre.data, isWhiteSpace c = true)
    (hpost : ∀ c ∈ post.data, isWhiteSpace c = true) : trim (pre ++ s ++ post) = trim s := by
  unfold trim
  congr 2
  simp only [String.data_append, List.append_assoc]
  rw [dropWhile_append_of_all isWhiteSpace pre.data _ hpre]
  by_cases hs : ∃ c ∈ s.data, isWhiteSpace c = false
  · rw [dropWhile_append_of_exists isWhiteSpace s.data post.data hs, List.reverse_append]
    rw [dropWhile_append_of_all isWhiteSpace post.data.reverse _
      (fun c hc => hpost c (List.mem_reverse.mp hc))]
  · have hall : ∀ c ∈ s.data, isWhiteSpace c = true := by
      intro c hc
      cases hw : isWhiteSpace c with
      | true => rfl
      | false => exact absurd ⟨c, hc, hw⟩ hs
    have hall2 : ∀ c ∈ s.data ++ post.data, isWhiteSpace c = true := by
      intro c hc
      rcases List.mem_append.mp hc with h1 | h2
      · exact hall c h1
      · exact hpost c h2
    rw [dropWhile_eq_nil_of_all isWhiteSpace _ hall2, dropWhile_eq_nil_of_all isWhiteSpace _ hall]

/-- Messages that differ only in surrounding white space and in letter case have the same
cache key, for every case folding that leaves the white-space padding in place. -/
theorem messageHash_pad_case (md5hex toLowerCase : String → String)
    (pre1 post1 pre2 post2 m1 m2 : String)
    (hpre1 : ∀ c ∈ pre1.data, isWhiteSpace c = true)
    (hpost1 : ∀ c ∈ post1.data, isWhiteSpace c = true)
    (hpre2 : ∀ c ∈ pre2.data, isWhiteSpace c = true)
    (hpost2 : ∀ c ∈ post2.data, isWhiteSpace c = true)
    (hl1 : toLowerCase (pre1 ++ m1 ++ post1) = pre1 ++ toLowerCase m1 ++ post1)
    (hl2 : toLowerCase (pre2 ++ m2 ++ post2) = pre2 ++ toLowerCase m2 ++ post2)
    (hcase : toLowerCase m1 = toLowerCase m2) :
    messageHash md5hex toLowerCase (pre1 ++ m1 ++ post1) =
      messageHash md5hex toLowerCase (pre2 ++ m2 ++ post2) := by
  unfold messageHash normalize
  rw [hl1, hl2, trim_pad _ _ _ hpre1 hpost1, trim_pad _ _ _ hpre2 hpost2, hcase]

/-- C1. The cache key of the query handlers is a function of the normalised message
(`message.toLowerCase().trim()`) only: two messages with the same normal form have the same
key, whatever the digest and the case folding are. -/
theorem messageHash_eq_of_normalize_eq (md5hex toLowerCase : String → String)
    (m1 m2 : String) (h : normalize toLowerCase m1 = normalize toLowerCase m2) :
    messageHash md5hex toLowerCase m1 = messageHash md5hex toLowerCase m2 := by
  unfold messageHash
  rw [h]

/-- C1 at a concrete pair: `"  Hello World \n"` and `"hello world"` have the same normal
form, hence the same key. -/
theorem messageHash_eq_of_normalize_eq_witness :
    normalize asciiToLowerCase "  Hello World \n" = normalize asciiToLowerCase "hello world" ∧
    messageHash (fun s => "md5:" ++ s) asciiToLowerCase "  Hello World \n" =
      messageHash (fun s => "md5:" ++ s) asciiToLowerCase "hello world" :=
  ⟨by decide, messageHash_eq_of_normalize_eq _ asciiToLowerCase _ _ (by decide)⟩

/-! ## The response cache of `MemorySessionManager` -/

namespace MemorySessionManager

theorem cache_get_cacheResponse_self (self : MemorySessionManager) (h r : String) (t : Int) :
    (self.cacheResponse h r t).cache.get h = some { response := r, timestamp := t } :=
  JSMap.get_set_self self.cache h _

theorem cache_get_cacheResponse_ne (self : MemorySessionManager) (h h' r : String) (t : Int)
    (hne : h' ≠ h) : (self.cacheResponse h r t).cache.get h' = self.cache.get h' :=
  JSMap.get_set_ne self.cache _ hne

theorem cache_get_runCacheWrites (writes : List (String × String × Int))
    (self : MemorySessionManager) (h : String) (hw : ∀ w ∈ writes, w.1 ≠ h) :
    (runCacheWrites self writes).cache.get h = self.cache.get h := by
  induction writes generalizing self with
  | nil => rfl
  | cons w ws ih =>
    have h1 : h ≠ w.1 := fun e => hw w (List.mem_cons_self w ws) e.symm
    have h2 : ∀ x ∈ ws, x.1 ≠ h := fun x hx => hw x (List.mem_cons_of_mem w hx)
    show (runCacheWrites (self.cacheResponse w.1 w.2.1 w.2.2) ws).cache.get h = _
    rw [ih _ h2, cache_get_cacheResponse_ne _ _ _ _ _ h1]

theorem getCachedResponse_of_get (self : MemorySessionManager) (h r : String) (t0 t : Int)
    (hget : self.cache.get h = some { response := r, timestamp := t0 }) :
    self.getCachedResponse h t = if t - t0 < 1800000 then some r else none := by
  unfold getCachedResponse
  rw [hget]

end MemorySessionManager

/-- C2. After `cacheResponse(h, r)` at time `t0` and any later writes to other hashes,
`getCachedResponse(h)` at time `t` returns `r` when `t - t0 < 1800000` and `null` when
`t - t0 ≥ 1800000`; in particular every read at `t0 + 1800000 + ε`, `ε ≥ 0`, is a miss. -/
theorem getCachedResponse_after_cacheResponse (self : MemorySessionManager) (h r : String)
    (t0 t : Int) (writes : List (String × String × Int)) (hw : ∀ w ∈ writes, w.1 ≠ h) :
    (t - t0 < 1800000 →
      (runCacheWrites (self.cacheResponse h r t0) writes).getCachedResponse h t = some r) ∧
    (1800000 ≤ t - t0 →
      (runCacheWrites (self.cacheResponse h r t0) writes).getCachedResponse h t = none) ∧
    (∀ ε : Int, 0 ≤ ε →
      (runCacheWrites (self.cacheResponse h r t0) writes).getCachedResponse h
        (t0 + 1800000 + ε) = none) := by
  have hget : (runCacheWrites (self.cacheResponse h r t0) writes).cache.get h =
      some { response := r, timestamp := t0 } := by
    rw [MemorySessionManager.cache_get_runCacheWrites writes _ h hw]
    exact MemorySessionManager.cache_get_cacheResponse_self self h r t0
  refine ⟨fun hlt => ?_, fun hge => ?_, fun ε hε => ?_⟩
  · rw [MemorySessionManager.getCachedResponse_of_get _ h r t0 t hget, if_pos hlt]
  · rw [MemorySessionManager.getCachedResponse_of_get _ h r t0 t hget, if_neg (not_lt.mpr hge)]
  · rw [MemorySessionManager.getCachedResponse_of_get _ h r t0 _ hget,
      if_neg (by omega)]

/-- C2 at concrete inputs: an entry written at `t0 = 1000` next to a later write to another
hash is returned one millisecond before the 30 minutes are over and not returned from then
on. -/
theorem getCachedResponse_after_cacheResponse_witness :
    (runCacheWrites (MemorySessionManager.new.cacheResponse "h1" "answer" 1000)
        [("h2", "other", 2000)]).getCachedResponse "h1" 1800999 = some "answer" ∧
    (runCacheWrites (MemorySessionManager.new.cacheResponse "h1" "answer" 1000)
        [("h2", "other", 2000)]).getCachedResponse "h1" 1801000 = none ∧
    (runCacheWrites (MemorySessionManager.new.cacheResponse "h1" "answer" 1000)
        [("h2", "other", 2000)]).getCachedResponse "h1" (1000 + 1800000 + 1) = none :=
  have hw : ∀ w ∈ [(("h2", "other", 2000) : String × String × Int)], w.1 ≠ "h1" := by decide
  ⟨(getCachedResponse_after_cacheResponse MemorySessionManager.new "h1" "answer" 1000 1800999
      [("h2", "other", 2000)] hw).1 (by decide),
   (getCachedResponse_after_cacheResponse MemorySessionManager.new "h1" "answer" 1000 1801000
      [("h2", "other", 2000)] hw).2.1 (by decide),
   (getCachedResponse_after_cacheResponse MemorySessionManager.new "h1" "answer" 1000 0
      [("h2", "other", 2000)] hw).2.2 1 (by decide)⟩

/-! ## The session store of `MemorySessionManager` -/

namespace MemorySessionManager

theorem addMessage_of_get_none (self : MemorySessionManager) (sid u b uuid : String)
    (tE tA : Int) (h : self.sessions.get sid = none) :
    self.addMessage sid u b uuid tE tA = (.error "Session not found", self) := by
  unfold addMessage
  rw [h]

theorem addMessage_of_get_some (self : MemorySessionManager) (sid u b uuid : String)
    (tE tA : Int) (sd : SessionData) (h : self.sessions.get sid = some sd) :
    self.addMessage sid u b uuid tE tA =
      (.ok uuid,
       { sessions := self.sessions.set sid
           { sessionId := sd.sessionId, createdAt := sd.createdAt, lastActivity := tA,
             messages := sd.messages ++
               [{ id := uuid, timestamp := tE, userMessage := u, botResponse := b }] },
         cache := self.cache }) := by
  unfold addMessage
  rw [h]

theorem getSessionHistory_clearSession_self (self : MemorySessionManager) (sid : String) :
    (self.clearSession sid).2.getSessionHistory sid = none :=
  JSMap.get_delete_self self.sessions sid

theorem getSessionHistory_clearSession_ne (self : MemorySessionManager) (sid sid' : String)
    (hne : sid' ≠ sid) :
    (self.clearSession sid).2.getSessionHistory sid' = self.getSessionHistory sid' :=
  JSMap.get_delete_ne self.sessions hne

theorem getSessionHistory_createSession (self : MemorySessionManager) (uuid : String)
    (tC tA : Int) :
    (self.createSession uuid tC tA).2.getSessionHistory uuid =
      some { sessionId := uuid, createdAt := tC, lastActivity := tA, messages := [] } :=
  JSMap.get_set_self self.sessions uuid _

end MemorySessionManager

/-- C7. For every store state and every `sessionId` that is not in the store, `addMessage`
throws `Session not found` and leaves both the sessions map and the cache as they were; for
every store state this is the case right after `clearSession(sessionId)`, and in the freshly
constructed store for every `sessionId`. -/
theorem addMessage_unknown_session (self : MemorySessionManager)
    (sessionId userMessage botResponse uuid : String) (tEntry tActivity : Int) :
    (self.getSessionHistory sessionId = none →
      self.addMessage sessionId userMessage botResponse uuid tEntry tActivity =
        (.error "Session not found", self)) ∧
    (self.clearSession sessionId).2.addMessage sessionId userMessage botResponse uuid
        tEntry tActivity = (.error "Session not found", (self.clearSession sessionId).2) ∧
    MemorySessionManager.new.addMessage sessionId userMessage botResponse uuid
        tEntry tActivity = (.error "Session not found", MemorySessionManager.new) := by
  refine ⟨fun h => ?_, ?_, ?_⟩
  · exact MemorySessionManager.addMessage_of_get_none self _ _ _ _ _ _ h
  · exact MemorySessionManager.addMessage_of_get_none _ _ _ _ _ _ _
      (MemorySessionManager.getSessionHistory_clearSession_self self sessionId)
  · exact MemorySessionManager.addMessage_of_get_none _ _ _ _ _ _ _ rfl

/-- C7 at a concrete store: one session `s1` and one cache entry; `addMessage` on `s2` throws
and the store is unchanged. -/
theorem addMessage_unknown_session_witness :
    ((MemorySessionManager.new.createSession "s1" 10 10).2.cacheResponse "h" "r" 20).addMessage
        "s2" "hello" "hi" "m1" 30 30 =
      (.error "Session not found",
       (MemorySessionManager.new.createSession "s1" 10 10).2.cacheResponse "h" "r" 20) :=
  (addMessage_unknown_session
    ((MemorySessionManager.new.createSession "s1" 10 10).2.cacheResponse "h" "r" 20)
    "s2" "hello" "hi" "m1" 30 30).1 (by decide)

/-- What `addMessage` does on a session that is present. -/
theorem addMessage_present (self : MemorySessionManager)
    (sessionId userMessage botResponse uuid : String) (tEntry tActivity : Int)
    (sd : SessionData) (h : self.getSessionHistory sessionId = some sd) :
    (self.addMessage sessionId userMessage botResponse uuid tEntry tActivity).1 = .ok uuid ∧
    (∃ sd',
      (self.addMessage sessionId userMessage botResponse uuid tEntry tActivity).2.getSessionHistory
        sessionId = some sd' ∧
      sd'.messages = sd.messages ++
        [{ id := uuid, timestamp := tEntry, userMessage := userMessage,
           botResponse := botResponse }] ∧
      sd'.messages.length = sd.messages.length + 1 ∧
      sd'.lastActivity = tActivity ∧
      (sd.lastActivity ≤ tActivity → sd.lastActivity ≤ sd'.lastActivity) ∧
      sd'.sessionId = sd.sessionId ∧
      sd'.createdAt = sd.createdAt) ∧
    (∀ other, other ≠ sessionId →
      (self.addMessage sessionId userMessage botResponse uuid tEntry tActivity).2.getSessionHistory
        other = self.getSessionHistory other) ∧
    (self.addMessage sessionId userMessage botResponse uuid tEntry tActivity).2.cache =
      self.cache := by
  rw [MemorySessionManager.addMessage_of_get_some self _ _ _ _ _ _ sd h]
  refine ⟨rfl, ⟨_, JSMap.get_set_self self.sessions sessionId _, rfl, ?_, rfl, ?_, rfl, rfl⟩,
    ?_, rfl⟩
  · simp
  · exact fun hle => hle
  · intro other hne
    exact JSMap.get_set_ne self.sessions _ hne

/-- C8. For every store state and every `sessionId` present in it with session data `sd`,
`addMessage` returns the identifier of the new entry, and afterwards the session is `sd` with
exactly one entry (the given `userMessage` and `botResponse`) appended at the end of
`messages` and `lastActivity` set to the clock read of the append: the message count grows by
one, `lastActivity` does not move backwards when the clock has not, `sessionId` and
`createdAt` are unchanged, every other session and the cache are unchanged. -/
theorem addMessage_known_session (self : MemorySessionManager)
    (sessionId userMessage botResponse uuid : String) (tEntry tActivity : Int)
    (sd : SessionData) (h : self.getSessionHistory sessionId = some sd) :
    (self.addMessage sessionId userMessage botResponse uuid tEntry tActivity).1 = .ok uuid ∧
    (∃ sd',
      (self.addMessage sessionId userMessage botResponse uuid tEntry tActivity).2.getSessionHistory
        sessionId = some sd' ∧
      sd'.messages = sd.messages ++
        [{ id := uuid, timestamp := tEntry, userMessage := userMessage,
           botResponse := botResponse }] ∧
      sd'.messages.length = sd.messages.length + 1 ∧
      sd'.lastActivity = tActivity ∧
      (sd.lastActivity ≤ tActivity → sd.lastActivity ≤ sd'.lastActivity) ∧
      sd'.sessionId = sd.sessionId ∧
      sd'.createdAt = sd.createdAt) ∧
    (∀ other, other ≠ sessionId →
      (self.addMessage sessionId userMessage botResponse uuid tEntry tActivity).2.getSessionHistory
        other = self.getSessionHistory other) ∧
    (self.addMessage sessionId userMessage botResponse uuid tEntry tActivity).2.cache =
      self.cache :=
  addMessage_present self sessionId userMessage botResponse uuid tEntry tActivity sd h

/-- C8 at a concrete store: a session created at time 10 receives one message at time 30. -/
theorem addMessage_known_session_witness :
    ((MemorySessionManager.new.createSession "s1" 10 10).2.addMessage
        "s1" "hello" "hi" "m1" 30 31).1 = .ok "m1" ∧
    ((MemorySessionManager.new.createSession "s1" 10 10).2.addMessage
        "s1" "hello" "hi" "m1" 30 31).2.getSessionHistory "s1" =
      some { sessionId := "s1", createdAt := 10, lastActivity := 31,
             messages := [{ id := "m1", timestamp := 30, userMessage := "hello",
                            botResponse := "hi" }] } :=
  ⟨(addMessage_known_session (MemorySessionManager.new.createSession "s1" 10 10).2
      "s1" "hello" "hi" "m1" 30 31
      { sessionId := "s1", createdAt := 10, lastActivity := 10, messages := [] }
      (by decide)).1,
   by decide⟩

/-- A run of `addMessage` calls on a session that is present: every call succeeds, the
entries are appended in call order, `lastActivity` is the clock read of the last call, and no
other session changes. -/
theorem runAppends_present (appends : List Append) (self : MemorySessionManager)
    (sid : String) (sd : SessionData) (h : self.getSessionHistory sid = some sd) :
    (runAppends self sid appends).1 = appends.map (fun a => Except.ok a.uuid) ∧
    (runAppends self sid appends).2.getSessionHistory sid =
      some { sessionId := sd.sessionId, createdAt := sd.createdAt,
             lastActivity := appends.foldl (fun _ a => a.tActivity) sd.lastActivity,
             messages := sd.messages ++ appends.map Append.entry } ∧
    (∀ other, other ≠ sid →
      (runAppends self sid appends).2.getSessionHistory other =
        self.getSessionHistory other) := by
  induction appends generalizing self sd with
  | nil =>
    refine ⟨rfl, ?_, fun _ _ => rfl⟩
    simp [runAppends, h]
  | cons a rest ih =>
    obtain ⟨hok, ⟨sd', hget, hmsgs, -, hact, -, hid, hcr⟩, hother, -⟩ :=
      addMessage_present self sid a.userMessage a.botResponse a.uuid a.tEntry
        a.tActivity sd h
    obtain ⟨ih1, ih2, ih3⟩ := ih _ sd' hget
    refine ⟨?_, ?_, ?_⟩
    · simp only [runAppends, List.map_cons, hok, ih1]
    · simp only [runAppends, ih2, hmsgs, hact, hid, hcr, List.foldl_cons, List.map_cons,
        List.append_assoc, List.singleton_append, Append.entry]
    · intro other hne
      simp only [runAppends]
      rw [ih3 other hne, hother other hne]

/-- C9. For every store state: after `createSession()` returned `id` and any sequence of
`addMessage(id, ...)` calls, every one of these calls has succeeded and `getSessionHistory(id)`
returns the session with exactly the appended messages in call order; `clearSession(id)` then
returns `true`, after it `getSessionHistory(id)` returns `null`, and every other session is what
it was before the `clearSession` call. -/
theorem session_create_append_clear (self : MemorySessionManager) (uuid : String)
    (tCreated tActivity : Int) (appends : List Append) :
    (self.createSession uuid tCreated tActivity).1 = uuid ∧
    (runAppends (self.createSession uuid tCreated tActivity).2 uuid appends).1 =
      appends.map (fun a => Except.ok a.uuid) ∧
    (runAppends (self.createSession uuid tCreated tActivity).2 uuid appends).2.getSessionHistory
        uuid =
      some { sessionId := uuid, createdAt := tCreated,
             lastActivity := appends.foldl (fun _ a => a.tActivity) tActivity,
             messages := appends.map Append.entry } ∧
    ((runAppends (self.createSession uuid tCreated tActivity).2 uuid appends).2.clearSession
        uuid).1 = true ∧
    ((runAppends (self.createSession uuid tCreated tActivity).2 uuid appends).2.clearSession
        uuid).2.getSessionHistory uuid = none ∧
    (∀ other, other ≠ uuid →
      ((runAppends (self.createSession uuid tCreated tActivity).2 uuid appends).2.clearSession
        uuid).2.getSessionHistory other =
      (runAppends (self.createSession uuid tCreated tActivity).2 uuid appends).2.getSessionHistory
        other) := by
  obtain ⟨h1, h2, -⟩ := runAppends_present appends (self.createSession uuid tCreated tActivity).2
    uuid _ (MemorySessionManager.getSessionHistory_createSession self uuid tCreated tActivity)
  refine ⟨rfl, h1, ?_, ?_, ?_, ?_⟩
  · simpa using h2
  · have hget := h2
    unfold MemorySessionManager.getSessionHistory JSMap.get at hget
    simp [MemorySessionManager.clearSession, JSMap.delete, JSMap.has, hget]
  · exact MemorySessionManager.getSessionHistory_clearSession_self _ uuid
  · intro other hne
    exact MemorySessionManager.getSessionHistory_clearSession_ne _ uuid other hne

/-- C10, what the code does. `MemorySessionManager` never reads the clock when it looks a
session up: a session created at time `tCreated` and idle since is returned by
`getSessionHistory` however late the read happens, and `addMessage` on it succeeds at every
time `t`, so also at `t = tCreated + 3600001` and later. -/
theorem memory_session_never_expires (self : MemorySessionManager) (uuid : String)
    (tCreated : Int) (t : Int) (userMessage botResponse mid : String) :
    (self.createSession uuid tCreated tCreated).2.getSessionHistory uuid =
      some { sessionId := uuid, createdAt := tCreated, lastActivity := tCreated,
             messages := [] } ∧
    ((self.createSession uuid tCreated tCreated).2.addMessage uuid userMessage botResponse mid
      t t).1 = .ok mid ∧
    ((MemorySessionManager.new.createSession "s1" 0 0).2.addMessage "s1" "hello" "hi" "m1"
      3600001 3600001).1 = .ok "m1" := by
  have hget := MemorySessionManager.getSessionHistory_createSession self uuid tCreated tCreated
  exact ⟨hget, (addMessage_present _ uuid userMessage botResponse mid _ _ _ hget).1, rfl⟩

/-! ## Deduplication by title -/

theorem firstSeen_cons_seen (seen : List String) (a : Article) (rest : List Article)
    (h : seen.contains a.payload.title = true) :
    firstSeen seen (a :: rest) = firstSeen seen rest := by
  simp only [firstSeen, h, if_true]

theorem firstSeen_cons_new (seen : List String) (a : Article) (rest : List Article)
    (h : seen.contains a.payload.title = false) :
    firstSeen seen (a :: rest) = a :: firstSeen (seen ++ [a.payload.title]) rest := by
  simp only [firstSeen, h, Bool.false_eq_true, if_false]

/-- The loop of `processQuery`, started from any intermediate state, extends the two
accumulators by what the recursion `firstSeen` yields on the remaining input. -/
theorem foldl_dedupStep (L : List Article) (u : List Article) (seen : List String) :
    L.foldl dedupStep (u, seen) =
      (u ++ firstSeen seen L, seen ++ (firstSeen seen L).map Article.title) := by
  induction L generalizing u seen with
  | nil => simp [firstSeen]
  | cons a rest ih =>
    cases h : seen.contains a.payload.title with
    | true =>
      rw [firstSeen_cons_seen seen a rest h, List.foldl_cons]
      simp only [dedupStep, h, if_true]
      exact ih u seen
    | false =>
      rw [firstSeen_cons_new seen a rest h, List.foldl_cons]
      simp only [dedupStep, h, Bool.false_eq_true, if_false]
      rw [ih]
      simp [Article.title]

theorem uniqueByTitle_eq_firstSeen (L : List Article) : uniqueByTitle L = firstSeen [] L := by
  unfold uniqueByTitle
  rw [foldl_dedupStep]
  simp

theorem firstSeen_sublist (L : List Article) (seen : List String) :
    (firstSeen seen L).Sublist L := by
  induction L generalizing seen with
  | nil => simp [firstSeen]
  | cons a rest ih =>
    cases h : seen.contains a.payload.title with
    | true =>
      rw [firstSeen_cons_seen seen a rest h]
      exact (ih seen).cons a
    | false =>
      rw [firstSeen_cons_new seen a rest h]
      exact (ih _).cons₂ a

theorem mem_titles_firstSeen (L : List Article) (seen : List String) (t : String) :
    t ∈ (firstSeen seen L).map Article.title ↔ t ∈ L.map Article.title ∧ t ∉ seen := by
  induction L generalizing seen with
  | nil => simp [firstSeen]
  | cons a rest ih =>
    cases h : seen.contains a.payload.title with
    | true =>
      have hmem : a.payload.title ∈ seen := by simpa using h
      rw [firstSeen_cons_seen seen a rest h, ih]
      simp only [List.map_cons, List.mem_cons, Article.title]
      constructor
      · rintro ⟨h1, h2⟩
        exact ⟨Or.inr h1, h2⟩
      · rintro ⟨h1 | h1, h2⟩
        · exact absurd (h1 ▸ hmem) h2
        · exact ⟨h1, h2⟩
    | false =>
      have hmem : a.payload.title ∉ seen := by simpa using h
      have key : t ∉ seen ++ [a.payload.title] ↔ (t ∉ seen ∧ t ≠ a.payload.title) := by simp
      rw [firstSeen_cons_new seen a rest h, List.map_cons, List.mem_cons, ih, key,
        List.map_cons, List.mem_cons]
      simp only [Article.title]
      constructor
      · rintro (h1 | ⟨h1, h2, -⟩)
        · exact ⟨Or.inl h1, h1 ▸ hmem⟩
        · exact ⟨Or.inr h1, h2⟩
      · rintro ⟨h1 | h1, h2⟩
        · exact Or.inl h1
        · by_cases ht : t = a.payload.title
          · exact Or.inl ht
          · exact Or.inr ⟨h1, h2, ht⟩

theorem nodup_titles_firstSeen (L : List Article) (seen : List String) :
    ((firstSeen seen L).map Article.title).Nodup := by
  induction L generalizing seen with
  | nil => simp [firstSeen]
  | cons a rest ih =>
    cases h : seen.contains a.payload.title with
    | true =>
      rw [firstSeen_cons_seen seen a rest h]
      exact ih seen
    | false =>
      rw [firstSeen_cons_new seen a rest h, List.map_cons, List.nodup_cons]
      refine ⟨?_, ih _⟩
      intro hmem
      have := (mem_titles_firstSeen rest _ _).mp hmem
      exact this.2 (by simp [Article.title])

theorem find?_of_mem_firstSeen (L : List Article) (seen : List String) (a : Article)
    (ha : a ∈ firstSeen seen L) :
    L.find? (fun b => b.payload.title == a.payload.title) = some a := by
  induction L generalizing seen with
  | nil => simp [firstSeen] at ha
  | cons b rest ih =>
    cases h : seen.contains b.payload.title with
    | true =>
      have hmem : b.payload.title ∈ seen := by simpa using h
      rw [firstSeen_cons_seen seen b rest h] at ha
      have hat : a.payload.title ∉ seen :=
        ((mem_titles_firstSeen rest seen a.payload.title).mp
          (List.mem_map_of_mem Article.title ha)).2
      have hne : b.payload.title ≠ a.payload.title := fun e => hat (e ▸ hmem)
      rw [List.find?_cons_of_neg _ (by simpa using hne)]
      exact ih seen ha
    | false =>
      rw [firstSeen_cons_new seen b rest h, List.mem_cons] at ha
      rcases ha with rfl | ha
      · simp
      · have hat : a.payload.title ∉ seen ++ [b.payload.title] :=
          ((mem_titles_firstSeen rest _ a.payload.title).mp
            (List.mem_map_of_mem Article.title ha)).2
        have hne : b.payload.title ≠ a.payload.title := by
          intro e
          exact hat (by simp [e])
        rw [List.find?_cons_of_neg _ (by simpa using hne)]
        exact ih _ ha

theorem firstSeen_eq_self (L : List Article) (seen : List String)
    (hnd : (L.map Article.title).Nodup) (hseen : ∀ t ∈ L.map Article.title, t ∉ seen) :
    firstSeen seen L = L := by
  induction L generalizing seen with
  | nil => simp [firstSeen]
  | cons a rest ih =>
    have ha : a.payload.title ∉ seen := hseen _ (by simp [Article.title])
    have h : seen.contains a.payload.title = false := by simpa using ha
    rw [List.map_cons, List.nodup_cons] at hnd
    rw [firstSeen_cons_new seen a rest h]
    congr 1
    apply ih _ hnd.2
    intro t ht
    simp only [List.mem_append, List.mem_singleton, not_or]
    refine ⟨hseen t (List.mem_cons_of_mem _ ht), ?_⟩
    rintro rfl
    exact hnd.1 ht

/-- What `processQuery` resolves to when the three service calls succeed. -/
theorem processQuery_ok (svc : Services) (q : String) (embs : List Embedding)
    (found : List Article) (response : String)
    (h1 : svc.createEmbeddings [q] = .ok embs)
    (h2 : svc.searchSimilar embs.head? 5 = .ok found)
    (h3 : svc.generateContent
      (buildPrompt q (buildContext (groundingArticles (uniqueByTitle found)))) =
        .ok response) :
    processQuery svc true q =
      (.ok { query := q, response := response,
             relevantArticles := (uniqueByTitle found).map toCitation },
       [Effect.createEmbeddings [q], Effect.searchSimilar embs.head? 5,
        Effect.generateContent
          (buildPrompt q (buildContext (groundingArticles (uniqueByTitle found))))]) := by
  simp [processQuery, generateResponse, h1, h2, h3]

/-- C4. For every list of matches returned by the vector index, the deduplication loop of
`processQuery` returns a sub-list of it (rank order kept) in which no two elements share a
title, every title of the input occurs exactly once, and each kept element is the first
element of the input with its title; the citations `processQuery` resolves to are this list
mapped element by element to `(title, url, score)`. -/
theorem uniqueByTitle_first_occurrences (L : List Article) :
    (uniqueByTitle L).Sublist L ∧
    ((uniqueByTitle L).map Article.title).Nodup ∧
    (∀ t ∈ L.map Article.title, ((uniqueByTitle L).map Article.title).count t = 1) ∧
    (∀ a ∈ uniqueByTitle L,
      L.find? (fun b => b.payload.title == a.payload.title) = some a) ∧
    (∀ (svc : Services) (q : String) (embs : List Embedding) (response : String),
      svc.createEmbeddings [q] = .ok embs →
      svc.searchSimilar embs.head? 5 = .ok L →
      svc.generateContent
        (buildPrompt q (buildContext (groundingArticles (uniqueByTitle L)))) = .ok response →
      (processQuery svc true q).1 =
        .ok { query := q, response := response,
              relevantArticles := (uniqueByTitle L).map toCitation }) := by
  rw [uniqueByTitle_eq_firstSeen]
  refine ⟨firstSeen_sublist L [], nodup_titles_firstSeen L [], ?_, ?_, ?_⟩
  · intro t ht
    apply List.count_eq_one_of_mem (nodup_titles_firstSeen L [])
    exact (mem_titles_firstSeen L [] t).mpr ⟨ht, List.not_mem_nil t⟩
  · intro a ha
    exact find?_of_mem_firstSeen L [] a ha
  · intro svc q embs response h1 h2 h3
    rw [← uniqueByTitle_eq_firstSeen] at h3 ⊢
    rw [processQuery_ok svc q embs L response h1 h2 h3]

/-- C5. The title deduplication of `processQuery` is idempotent, and it is the identity on
every list whose titles are pairwise distinct. -/
theorem uniqueByTitle_idempotent (L : List Article) :
    uniqueByTitle (uniqueByTitle L) = uniqueByTitle L ∧
    (∀ M : List Article, (M.map Article.title).Nodup → uniqueByTitle M = M) := by
  have hid : ∀ M : List Article, (M.map Article.title).Nodup → uniqueByTitle M = M := by
    intro M hM
    rw [uniqueByTitle_eq_firstSeen]
    exact firstSeen_eq_self M [] hM (fun t _ => List.not_mem_nil t)
  refine ⟨hid _ ?_, hid⟩
  rw [uniqueByTitle_eq_firstSeen]
  exact nodup_titles_firstSeen L []

/-! ## The grounding set of the generation prompt -/

theorem JSMap.insert_of_not_mem {κ ν : Type} [DecidableEq κ] (k : κ) (v : ν)
    (E : List (κ × ν)) (h : ∀ e ∈ E, e.1 ≠ k) : JSMap.insert k v E = E ++ [(k, v)] := by
  induction E with
  | nil => rfl
  | cons e rest ih =>
    obtain ⟨k1, v1⟩ := e
    have h1 : k1 ≠ k := h (k1, v1) (List.mem_cons_self _ _)
    have h2 : ∀ e ∈ rest, e.1 ≠ k := fun e he => h e (List.mem_cons_of_mem _ he)
    simp [JSMap.insert, h1, ih h2]

theorem JSMap.foldl_set_of_nodup {κ ν : Type} [DecidableEq κ] (es : List (κ × ν))
    (m : JSMap κ ν) (hnd : (es.map Prod.fst).Nodup)
    (hdisj : ∀ e ∈ es, ∀ e' ∈ m.entries, e'.1 ≠ e.1) :
    (es.foldl (fun m e => m.set e.1 e.2) m).entries = m.entries ++ es := by
  induction es generalizing m with
  | nil => simp
  | cons e rest ih =>
    rw [List.map_cons, List.nodup_cons] at hnd
    have hins : JSMap.insert e.1 e.2 m.entries = m.entries ++ [e] :=
      JSMap.insert_of_not_mem e.1 e.2 m.entries (hdisj e (List.mem_cons_self _ _))
    rw [List.foldl_cons, ih (m.set e.1 e.2) hnd.2]
    · simp [JSMap.set, hins]
    · intro x hx y hy
      simp only [JSMap.set, hins, List.mem_append, List.mem_singleton] at hy
      rcases hy with hy | rfl
      · exact hdisj x (List.mem_cons_of_mem _ hx) y hy
      · intro heq
        exact hnd.1 (heq ▸ List.mem_map_of_mem Prod.fst hx)

/-- On matches with pairwise distinct titles the `Map` of `generateResponse` keeps every
match in place, so the grounding set is the first four of them. -/
theorem groundingArticles_of_nodup (M : List Article) (hM : (M.map Article.title).Nodup) :
    groundingArticles M = M.take 4 := by
  unfold groundingArticles JSMap.ofEntries JSMap.values
  rw [JSMap.foldl_set_of_nodup]
  · simp [JSMap.empty, Function.comp_def]
  · simpa [Function.comp_def, Article.title] using hM
  · intro e _ e' he'
    simp [JSMap.empty] at he'

theorem length_uniqueByTitle (L : List Article) :
    (uniqueByTitle L).length = (L.map Article.title).toFinset.card := by
  have hnd := nodup_titles_firstSeen L []
  rw [uniqueByTitle_eq_firstSeen, ← List.length_map (firstSeen [] L) Article.title,
    ← List.toFinset_card_of_nodup hnd]
  congr 1
  ext t
  simp only [List.mem_toFinset]
  rw [mem_titles_firstSeen]
  simp

/-- C6. For every list of matches returned by the vector index, the articles that
`generateResponse` puts into the prompt, when called by `processQuery` on the deduplicated
matches, are the first `min(4, k)` elements of the deduplicated list, `k` being the number of
distinct titles: the `Map`-based deduplication changes nothing, at most four articles are
kept, the one generation call is made on the prompt built from them, and for matches titled
`"A"`, `"A"`, `"B"` the grounding set is the first `"A"` match followed by the `"B"` match. -/
theorem groundingArticles_uniqueByTitle (L : List Article) :
    groundingArticles (uniqueByTitle L) = (uniqueByTitle L).take 4 ∧
    (groundingArticles (uniqueByTitle L)).length = min 4 (L.map Article.title).toFinset.card ∧
    (groundingArticles (uniqueByTitle L)).length ≤ 4 ∧
    (∀ (svc : Services) (q : String),
      (generateResponse svc q (uniqueByTitle L)).2 =
        [Effect.generateContent (buildPrompt q (buildContext ((uniqueByTitle L).take 4)))]) ∧
    (∀ a1 a2 b : Article, a1.payload.title = "A" → a2.payload.title = "A" →
      b.payload.title = "B" → groundingArticles (uniqueByTitle [a1, a2, b]) = [a1, b]) := by
  have hnd : ∀ M : List Article, ((uniqueByTitle M).map Article.title).Nodup := by
    intro M
    rw [uniqueByTitle_eq_firstSeen]
    exact nodup_titles_firstSeen M []
  have hg : ∀ M : List Article, groundingArticles (uniqueByTitle M) = (uniqueByTitle M).take 4 :=
    fun M => groundingArticles_of_nodup _ (hnd M)
  refine ⟨hg L, ?_, ?_, ?_, ?_⟩
  · rw [hg L, List.length_take, length_uniqueByTitle]
  · rw [hg L, List.length_take]
    exact Nat.min_le_left _ _
  · intro svc q
    simp only [generateResponse, hg L]
  · intro a1 a2 b h1 h2 h3
    rw [hg]
    simp [uniqueByTitle, dedupStep, h1, h2, h3]

/-! ## The `send-message` handler on a cache hit -/

theorem truthy_some_of_ne (r : String) (hr : r ≠ "") : truthy (some r) = some r := by
  simp [truthy, hr]

/-- The part of the handler before `addMessage`, when the cache holds a fresh non-empty
answer: the answer is the cached text, there are no citations, the store is unchanged and the
only action is the cache lookup. -/
theorem answerOrCompute_cache_hit (env : Surroundings) (st : ServerState) (message r : String)
    (t0 : Int)
    (hentry : st.sessionManager.cache.get (messageHash env.md5hex env.toLowerCase message) =
      some { response := r, timestamp := t0 })
    (hfresh : env.tLookup - t0 < 1800000) (hr : r ≠ "") :
    answerOrCompute env st message =
      (.ok (r, []), st.sessionManager,
       [Effect.getCachedResponse (messageHash env.md5hex env.toLowerCase message)]) := by
  unfold answerOrCompute
  simp only [MemorySessionManager.getCachedResponse_of_get _ _ r t0 _ hentry, if_pos hfresh,
    truthy_some_of_ne r hr]

/-- The handler on a cache hit with a non-empty cached text. -/
theorem sendMessage_on_cache_hit (env : Surroundings) (st : ServerState)
    (sessionId message r : String) (t0 : Int)
    (hinit : st.isRAGInitialized = true)
    (hentry : st.sessionManager.cache.get (messageHash env.md5hex env.toLowerCase message) =
      some { response := r, timestamp := t0 })
    (hfresh : env.tLookup - t0 < 1800000) (hr : r ≠ "") :
    (sendMessage env st sessionId message).2.2 =
      [Effect.getCachedResponse (messageHash env.md5hex env.toLowerCase message),
       Effect.addMessage sessionId message r] ∧
    (∀ e ∈ (sendMessage env st sessionId message).2.2, e.isServiceCall = false) ∧
    (∀ sd, st.sessionManager.getSessionHistory sessionId = some sd →
      (sendMessage env st sessionId message).1 =
        [Emitted.botTyping sessionId true,
         Emitted.botResponse sessionId (.answer r [] env.tEmit),
         Emitted.botTyping sessionId false]) ∧
    (st.sessionManager.getSessionHistory sessionId = none →
      (sendMessage env st sessionId message).1 =
        [Emitted.botTyping sessionId true,
         Emitted.botResponse sessionId (.failure genericError (some env.tEmit)),
         Emitted.botTyping sessionId false] ∧
      (sendMessage env st sessionId message).2.1 = st) := by
  have hstep := answerOrCompute_cache_hit env st message r t0 hentry hfresh hr
  have heff : (sendMessage env st sessionId message).2.2 =
      [Effect.getCachedResponse (messageHash env.md5hex env.toLowerCase message),
       Effect.addMessage sessionId message r] := by
    cases hget : st.sessionManager.sessions.get sessionId with
    | none =>
      simp [sendMessage, hinit, hstep,
        MemorySessionManager.addMessage_of_get_none _ _ _ _ _ _ _ hget]
    | some sd =>
      simp [sendMessage, hinit, hstep,
        MemorySessionManager.addMessage_of_get_some _ _ _ _ _ _ _ sd hget]
  refine ⟨heff, ?_, ?_, ?_⟩
  · intro e he
    rw [heff] at he
    simp only [List.mem_cons, List.mem_singleton, List.not_mem_nil, or_false] at he
    rcases he with rfl | rfl <;> rfl
  · intro sd hsd
    simp [sendMessage, hinit, hstep,
      MemorySessionManager.addMessage_of_get_some _ _ _ _ _ _ _ sd hsd]
  · intro hnone
    have hadd := MemorySessionManager.addMessage_of_get_none st.sessionManager sessionId
      message r env.uuid env.tEntry env.tActivity hnone
    refine ⟨by simp [sendMessage, hinit, hstep, hadd], ?_⟩
    cases st with
    | mk ready pipelineReady sm =>
      simp only at hinit hstep hadd
      subst hinit
      simp [sendMessage, hstep, hadd]

/-- C3, as the code has it. For every query handled by the `send-message` handler while
`isRAGInitialized` is true, whose normalised hash has an unexpired cache entry holding a
non-empty text `r`: the handler performs the cache lookup and the `addMessage` call and no
call to the embedding, vector-search or generation service; when `sessionId` is in the
session store it emits `message = r` with an empty `relevantArticles` list, and when it is not
it emits the generic error and leaves the state as it was. -/
theorem sendMessage_cache_hit (env : Surroundings) (st : ServerState)
    (sessionId message r : String) (t0 : Int)
    (hinit : st.isRAGInitialized = true)
    (hentry : st.sessionManager.cache.get (messageHash env.md5hex env.toLowerCase message) =
      some { response := r, timestamp := t0 })
    (hfresh : env.tLookup - t0 < 1800000) (hr : r ≠ "") :
    (sendMessage env st sessionId message).2.2 =
      [Effect.getCachedResponse (messageHash env.md5hex env.toLowerCase message),
       Effect.addMessage sessionId message r] ∧
    (∀ e ∈ (sendMessage env st sessionId message).2.2, e.isServiceCall = false) ∧
    (∀ sd, st.sessionManager.getSessionHistory sessionId = some sd →
      (sendMessage env st sessionId message).1 =
        [Emitted.botTyping sessionId true,
         Emitted.botResponse sessionId (.answer r [] env.tEmit),
         Emitted.botTyping sessionId false]) ∧
    (st.sessionManager.getSessionHistory sessionId = none →
      (sendMessage env st sessionId message).1 =
        [Emitted.botTyping sessionId true,
         Emitted.botResponse sessionId (.failure genericError (some env.tEmit)),
         Emitted.botTyping sessionId false] ∧
      (sendMessage env st sessionId message).2.1 = st) :=
  sendMessage_on_cache_hit env st sessionId message r t0 hinit hentry hfresh hr

/-- C3 at a concrete run: the cache holds `cached answer`, written 50 ms before the lookup,
and the session `s1` exists. -/
theorem sendMessage_cache_hit_witness :
    (sendMessage sampleSurroundings (sampleState "cached answer") "s1" "Hello ").2.2 =
      [Effect.getCachedResponse "md5:hello",
       Effect.addMessage "s1" "Hello " "cached answer"] ∧
    (sendMessage sampleSurroundings (sampleState "cached answer") "s1" "Hello ").1 =
      [Emitted.botTyping "s1" true,
       Emitted.botResponse "s1" (.answer "cached answer" [] 130),
       Emitted.botTyping "s1" false] :=
  have h := sendMessage_cache_hit sampleSurroundings (sampleState "cached answer")
    "s1" "Hello " "cached answer" 50 rfl (by decide) (by decide) (by decide)
  ⟨h.1, h.2.2.1 { sessionId := "s1", createdAt := 0, lastActivity := 0, messages := [] }
    (by decide)⟩

/-- C3 as stated fails at two concrete runs. With the empty text cached (unexpired) under the
key of the message, the handler calls the three services and emits the newly generated answer;
with a non-empty text cached and a `sessionId` that is not in the store, the handler emits the
generic error instead of the cached text. -/
theorem sendMessage_cache_hit_counterexample :
    ((sampleState "").sessionManager.getCachedResponse "md5:hello" 100 = some "" ∧
     ((sendMessage sampleSurroundings (sampleState "") "s1" "Hello ").2.2.filter
        Effect.isServiceCall).length = 3 ∧
     (sendMessage sampleSurroundings (sampleState "") "s1" "Hello ").1 =
       [Emitted.botTyping "s1" true,
        Emitted.botResponse "s1"
          (.answer "generated answer" [{ title := "A", url := "http://a", score := 9 }] 130),
        Emitted.botTyping "s1" false]) ∧
    ((sampleState "cached answer").sessionManager.getCachedResponse "md5:hello" 100 =
       some "cached answer" ∧
     (sendMessage sampleSurroundings (sampleState "cached answer") "s2" "Hello ").1 =
       [Emitted.botTyping "s2" true,
        Emitted.botResponse "s2" (.failure genericError (some 130)),
        Emitted.botTyping "s2" false]) := by
  refine ⟨⟨by decide, by decide, by decide⟩, by decide, by decide⟩

/-! ## Readiness -/

/-- C11. For every query string, `processQuery` on a pipeline whose `isInitialized` is false
throws the not-initialised error and calls none of the three services; and the `send-message`
handler, when `isRAGInitialized` is false, emits the still-initialising response between the
two typing events, performs no action at all (no cache lookup, no cache write, no `addMessage`,
no service call) and leaves the state as it was. -/
theorem not_ready_no_calls (svc : Services) (userQuery : String) (env : Surroundings)
    (st : ServerState) (sessionId message : String) :
    processQuery svc false userQuery =
      (.error "RAG pipeline not initialized. Call initializeWithNewsData() first.", []) ∧
    (st.isRAGInitialized = false →
      sendMessage env st sessionId message =
        ([Emitted.botTyping sessionId true,
          Emitted.botResponse sessionId
            (.failure "System is still initializing. Please try again in a moment." none),
          Emitted.botTyping sessionId false], st, [])) := by
  refine ⟨rfl, fun h => ?_⟩
  simp [sendMessage, h]

/-- C11 at a concrete run: a server that is not ready, with a session and a cached answer for
the message in its store. -/
theorem not_ready_no_calls_witness :
    sendMessage sampleSurroundings
        { sampleState "cached answer" with isRAGInitialized := false } "s1" "Hello " =
      ([Emitted.botTyping "s1" true,
        Emitted.botResponse "s1"
          (.failure "System is still initializing. Please try again in a moment." none),
        Emitted.botTyping "s1" false],
       { sampleState "cached answer" with isRAGInitialized := false }, []) :=
  (not_ready_no_calls sampleServices "Hello " sampleSurroundings
    { sampleState "cached answer" with isRAGInitialized := false } "s1" "Hello ").2 rfl

/-! ## Failing pipeline stages -/

theorem processQuery_embed_error (svc : Services) (q err : String)
    (h1 : svc.createEmbeddings [q] = .error err) :
    processQuery svc true q = (.error err, [Effect.createEmbeddings [q]]) := by
  simp [processQuery, h1]

theorem processQuery_search_error (svc : Services) (q err : String) (embs : List Embedding)
    (h1 : svc.createEmbeddings [q] = .ok embs)
    (h2 : svc.searchSimilar embs.head? 5 = .error err) :
    processQuery svc true q =
      (.error err, [Effect.createEmbeddings [q], Effect.searchSimilar embs.head? 5]) := by
  simp [processQuery, h1, h2]

theorem processQuery_generate_error (svc : Services) (q err : String) (embs : List Embedding)
    (found : List Article)
    (h1 : svc.createEmbeddings [q] = .ok embs)
    (h2 : svc.searchSimilar embs.head? 5 = .ok found)
    (h3 : svc.generateContent
      (buildPrompt q (buildContext (groundingArticles (uniqueByTitle found)))) = .error err) :
    processQuery svc true q =
      (.error err,
       [Effect.createEmbeddings [q], Effect.searchSimilar embs.head? 5,
        Effect.generateContent
          (buildPrompt q (buildContext (groundingArticles (uniqueByTitle found))))]) := by
  simp [processQuery, generateResponse, h1, h2, h3]

/-- The handler on a cache miss when `processQuery` throws: the generic error is emitted, the
state is what it was, and the actions are the cache lookup followed by those of the
pipeline. -/
theorem sendMessage_pipeline_error (env : Surroundings) (st : ServerState)
    (sessionId message err : String) (es : List Effect)
    (hinit : st.isRAGInitialized = true)
    (hmiss : truthy (st.sessionManager.getCachedResponse
      (messageHash env.md5hex env.toLowerCase message) env.tLookup) = none)
    (hq : processQuery env.services st.pipelineInitialized message = (.error err, es)) :
    sendMessage env st sessionId message =
      ([Emitted.botTyping sessionId true,
        Emitted.botResponse sessionId (.failure genericError (some env.tEmit)),
        Emitted.botTyping sessionId false], st,
       Effect.getCachedResponse (messageHash env.md5hex env.toLowerCase message) :: es) := by
  cases st with
  | mk ready pipelineReady sm =>
    simp only at hinit hmiss hq
    subst hinit
    simp [sendMessage, answerOrCompute, hmiss, hq]

/-- C12. For every query of the `send-message` handler on a cache miss (ready server): if the
embedding call fails, or the vector search fails, or the generation call fails, the handler
emits the generic error, the whole state (response cache and session store) is what it was
before, and the actions performed are the cache lookup and the service calls up to and
including the failing one: no later stage, no `cacheResponse`, no `addMessage`. -/
theorem sendMessage_stage_failure (env : Surroundings) (st : ServerState)
    (sessionId message : String)
    (hinit : st.isRAGInitialized = true) (hpipe : st.pipelineInitialized = true)
    (hmiss : truthy (st.sessionManager.getCachedResponse
      (messageHash env.md5hex env.toLowerCase message) env.tLookup) = none) :
    (∀ err, env.services.createEmbeddings [message] = .error err →
      sendMessage env st sessionId message =
        ([Emitted.botTyping sessionId true,
          Emitted.botResponse sessionId (.failure genericError (some env.tEmit)),
          Emitted.botTyping sessionId false], st,
         [Effect.getCachedResponse (messageHash env.md5hex env.toLowerCase message),
          Effect.createEmbeddings [message]])) ∧
    (∀ embs err, env.services.createEmbeddings [message] = .ok embs →
      env.services.searchSimilar embs.head? 5 = .error err →
      sendMessage env st sessionId message =
        ([Emitted.botTyping sessionId true,
          Emitted.botResponse sessionId (.failure genericError (some env.tEmit)),
          Emitted.botTyping sessionId false], st,
         [Effect.getCachedResponse (messageHash env.md5hex env.toLowerCase message),
          Effect.createEmbeddings [message], Effect.searchSimilar embs.head? 5])) ∧
    (∀ embs found err, env.services.createEmbeddings [message] = .ok embs →
      env.services.searchSimilar embs.head? 5 = .ok found →
      env.services.generateContent
        (buildPrompt message (buildContext (groundingArticles (uniqueByTitle found)))) =
          .error err →
      sendMessage env st sessionId message =
        ([Emitted.botTyping sessionId true,
          Emitted.botResponse sessionId (.failure genericError (some env.tEmit)),
          Emitted.botTyping sessionId false], st,
         [Effect.getCachedResponse (messageHash env.md5hex env.toLowerCase message),
          Effect.createEmbeddings [message], Effect.searchSimilar embs.head? 5,
          Effect.generateContent
            (buildPrompt message
              (buildContext (groundingArticles (uniqueByTitle found))))])) := by
  refine ⟨fun err h1 => ?_, fun embs err h1 h2 => ?_, fun embs found err h1 h2 h3 => ?_⟩
  · exact sendMessage_pipeline_error env st sessionId message err _ hinit hmiss
      (by rw [hpipe]; exact processQuery_embed_error _ _ _ h1)
  · exact sendMessage_pipeline_error env st sessionId message err _ hinit hmiss
      (by rw [hpipe]; exact processQuery_search_error _ _ _ _ h1 h2)
  · exact sendMessage_pipeline_error env st sessionId message err _ hinit hmiss
      (by rw [hpipe]; exact processQuery_generate_error _ _ _ _ _ h1 h2 h3)

/-- C12 at a concrete run: the vector search fails on a cache miss; the store still holds its
one session and its one cache entry, and the generation call is never made. -/
theorem sendMessage_stage_failure_witness :
    sendMessage { sampleSurroundings with services := servicesFailingAt 1 }
        (sampleState "cached answer") "s1" "News?" =
      ([Emitted.botTyping "s1" true,
        Emitted.botResponse "s1" (.failure genericError (some 130)),
        Emitted.botTyping "s1" false], sampleState "cached answer",
       [Effect.getCachedResponse "md5:news?", Effect.createEmbeddings ["News?"],
        Effect.searchSimilar (some [1, 2, 3]) 5]) :=
  (sendMessage_stage_failure { sampleSurroundings with services := servicesFailingAt 1 }
    (sampleState "cached answer") "s1" "News?" rfl rfl (by decide)).2.1
      [[1, 2, 3]] "service unavailable" rfl rfl

/-! ## The error `processQuery` surfaces -/

/-- C14, as the code has it. For every failure of the embedding call, the vector search or
the generation call inside `processQuery`, the error `processQuery` throws is the service error
itself, unchanged: nothing is wrapped around it and no stage name is added. -/
theorem processQuery_rethrows (svc : Services) (q : String) :
    (∀ err, svc.createEmbeddings [q] = .error err →
      (processQuery svc true q).1 = .error err) ∧
    (∀ embs err, svc.createEmbeddings [q] = .ok embs →
      svc.searchSimilar embs.head? 5 = .error err →
      (processQuery svc true q).1 = .error err) ∧
    (∀ embs found err, svc.createEmbeddings [q] = .ok embs →
      svc.searchSimilar embs.head? 5 = .ok found →
      svc.generateContent
        (buildPrompt q (buildContext (groundingArticles (uniqueByTitle found)))) =
          .error err →
      (processQuery svc true q).1 = .error err) := by
  refine ⟨fun err h1 => ?_, fun embs err h1 h2 => ?_, fun embs found err h1 h2 h3 => ?_⟩
  · rw [processQuery_embed_error svc q err h1]
  · rw [processQuery_search_error svc q err embs h1 h2]
  · rw [processQuery_generate_error svc q err embs found h1 h2 h3]

/-- C14 at a concrete run: the embedding service rejects with `service unavailable`, and this
text is what `processQuery` throws. -/
theorem processQuery_rethrows_witness :
    (processQuery (servicesFailingAt 0) true "News?").1 = .error "service unavailable" :=
  (processQuery_rethrows (servicesFailingAt 0) "News?").1 "service unavailable" rfl

/-- C14 as stated fails: when the embedding call, the vector search or the generation call
fails with the same service error, `processQuery` surfaces the same error in the three cases,
so the failing stage cannot be told from the surfaced error. -/
theorem processQuery_stage_not_in_error :
    (processQuery (servicesFailingAt 0) true "News?").1 = .error "service unavailable" ∧
    (processQuery (servicesFailingAt 1) true "News?").1 = .error "service unavailable" ∧
    (processQuery (servicesFailingAt 2) true "News?").1 = .error "service unavailable" ∧
    (processQuery (servicesFailingAt 0) true "News?").2.length = 1 ∧
    (processQuery (servicesFailingAt 1) true "News?").2.length = 2 ∧
    (processQuery (servicesFailingAt 2) true "News?").2.length = 3 :=
  ⟨rfl, rfl, rfl, rfl, rfl, rfl⟩

/-! ## Overwriting a cache entry -/

theorem JSMap.insert_insert_self {κ ν : Type} [DecidableEq κ] (k : κ) (v1 v2 : ν)
    (l : List (κ × ν)) : JSMap.insert k v2 (JSMap.insert k v1 l) = JSMap.insert k v2 l := by
  induction l with
  | nil => simp [JSMap.insert]
  | cons e rest ih =>
    obtain ⟨k', v'⟩ := e
    by_cases h : k' = k
    · simp [JSMap.insert, h]
    · simp [JSMap.insert, h, ih]

theorem JSMap.map_fst_insert {κ ν : Type} [DecidableEq κ] (k : κ) (v : ν)
    (l : List (κ × ν)) :
    (JSMap.insert k v l).map Prod.fst =
      if k ∈ l.map Prod.fst then l.map Prod.fst else l.map Prod.fst ++ [k] := by
  induction l with
  | nil => simp [JSMap.insert]
  | cons e rest ih =>
    obtain ⟨k', v'⟩ := e
    by_cases h : k' = k
    · subst h
      simp [JSMap.insert]
    · have h' : ¬ k = k' := fun e => h e.symm
      by_cases hm : k ∈ rest.map Prod.fst
      · rw [if_pos hm] at ih
        simp only [JSMap.insert, h, if_false, List.map_cons, ih, List.mem_cons, hm, or_true,
          if_true]
      · rw [if_neg hm] at ih
        simp only [JSMap.insert, h, if_false, List.map_cons, ih, List.mem_cons, hm, h',
          or_self, List.cons_append]

theorem JSMap.wf_empty {κ ν : Type} : (JSMap.empty : JSMap κ ν).WF := by
  simp [JSMap.WF, JSMap.empty]

theorem JSMap.wf_set {κ ν : Type} [DecidableEq κ] (m : JSMap κ ν) (k : κ) (v : ν)
    (h : m.WF) : (m.set k v).WF := by
  unfold JSMap.WF JSMap.set at *
  rw [JSMap.map_fst_insert]
  by_cases hm : k ∈ m.entries.map Prod.fst
  · rw [if_pos hm]
    exact h
  · rw [if_neg hm]
    exact List.Nodup.append h (List.nodup_singleton k) (by simpa using hm)

theorem JSMap.wf_delete {κ ν : Type} [DecidableEq κ] (m : JSMap κ ν) (k : κ)
    (h : m.WF) : (m.delete k).2.WF := by
  unfold JSMap.WF JSMap.delete at *
  exact List.Nodup.sublist (List.Sublist.map _ (List.filter_sublist _)) h

theorem JSMap.count_key_set {κ ν : Type} [DecidableEq κ] (m : JSMap κ ν) (k : κ) (v : ν)
    (h : m.WF) : ((m.set k v).entries.map Prod.fst).count k = 1 := by
  apply List.count_eq_one_of_mem (JSMap.wf_set m k v h)
  unfold JSMap.set
  rw [JSMap.map_fst_insert]
  by_cases hm : k ∈ m.entries.map Prod.fst
  · rw [if_pos hm]
    exact hm
  · rw [if_neg hm]
    simp

/-- Writing a hash twice leaves the store as the second write alone would. -/
theorem MemorySessionManager.cacheResponse_cacheResponse (self : MemorySessionManager)
    (h r1 r2 : String) (t0 t1 : Int) :
    (self.cacheResponse h r1 t0).cacheResponse h r2 t1 = self.cacheResponse h r2 t1 := by
  simp [MemorySessionManager.cacheResponse, JSMap.set, JSMap.insert_insert_self]

/-- C13. For every store (with a well-formed cache map), hash `h`, text `r` and times `t0`,
`t1`: `cacheResponse(h, r)` at `t0` followed by `cacheResponse(h, r)` at `t1` leaves the store
in the state the single call at `t1` leaves it in; the cache then has exactly one entry for
`h`, this entry is returned exactly while `t - t1 < 1800000`, the entries of all other hashes
and the sessions are unchanged. -/
theorem cacheResponse_overwrite (self : MemorySessionManager) (h r : String) (t0 t1 : Int)
    (hwf : self.cache.WF) :
    (self.cacheResponse h r t0).cacheResponse h r t1 = self.cacheResponse h r t1 ∧
    (((self.cacheResponse h r t0).cacheResponse h r t1).cache.entries.map Prod.fst).count h
      = 1 ∧
    ((self.cacheResponse h r t0).cacheResponse h r t1).cache.WF ∧
    (∀ t, ((self.cacheResponse h r t0).cacheResponse h r t1).getCachedResponse h t =
      if t - t1 < 1800000 then some r else none) ∧
    (∀ h', h' ≠ h →
      ((self.cacheResponse h r t0).cacheResponse h r t1).cache.get h' = self.cache.get h') ∧
    ((self.cacheResponse h r t0).cacheResponse h r t1).sessions = self.sessions := by
  rw [MemorySessionManager.cacheResponse_cacheResponse]
  refine ⟨rfl, JSMap.count_key_set self.cache h _ hwf, JSMap.wf_set self.cache h _ hwf, ?_, ?_,
    rfl⟩
  · intro t
    exact MemorySessionManager.getCachedResponse_of_get _ h r t1 t
      (MemorySessionManager.cache_get_cacheResponse_self self h r t1)
  · intro h' hne
    exact MemorySessionManager.cache_get_cacheResponse_ne self h h' r t1 hne

/-- C13 at a concrete store: a cache holding an entry for another hash; `h1` is written at
time 1000 and again at time 5000. -/
theorem cacheResponse_overwrite_witness :
    ((MemorySessionManager.new.cacheResponse "h2" "other" 10).cacheResponse "h1" "answer"
        1000).cacheResponse "h1" "answer" 5000 =
      (MemorySessionManager.new.cacheResponse "h2" "other" 10).cacheResponse "h1" "answer"
        5000 ∧
    (((MemorySessionManager.new.cacheResponse "h2" "other" 10).cacheResponse "h1" "answer"
        1000).cacheResponse "h1" "answer" 5000).cache.entries =
      [("h2", { response := "other", timestamp := 10 }),
       ("h1", { response := "answer", timestamp := 5000 })] :=
  ⟨(cacheResponse_overwrite (MemorySessionManager.new.cacheResponse "h2" "other" 10)
      "h1" "answer" 1000 5000 (by decide)).1, by decide⟩

/-! ## Errors at the transport boundary -/

/-- The `send-message` handler when the part before `addMessage` throws. -/
theorem sendMessage_of_step_error (env : Surroundings) (st : ServerState)
    (sessionId message err : String) (sm : MemorySessionManager) (es : List Effect)
    (hinit : st.isRAGInitialized = true)
    (hstep : answerOrCompute env st message = (.error err, sm, es)) :
    (sendMessage env st sessionId message).1 =
      [Emitted.botTyping sessionId true,
       Emitted.botResponse sessionId (.failure genericError (some env.tEmit)),
       Emitted.botTyping sessionId false] := by
  simp [sendMessage, hinit, hstep]

/-- The `send-message` handler when `addMessage` throws. -/
theorem sendMessage_of_addMessage_error (env : Surroundings) (st : ServerState)
    (sessionId message err r : String) (cites : List Citation)
    (sm sm1 : MemorySessionManager) (es : List Effect)
    (hinit : st.isRAGInitialized = true)
    (hstep : answerOrCompute env st message = (.ok (r, cites), sm, es))
    (hadd : sm.addMessage sessionId message r env.uuid env.tEntry env.tActivity =
      (.error err, sm1)) :
    (sendMessage env st sessionId message).1 =
      [Emitted.botTyping sessionId true,
       Emitted.botResponse sessionId (.failure genericError (some env.tEmit)),
       Emitted.botTyping sessionId false] := by
  simp [sendMessage, hinit, hstep, hadd]

/-- The handler of `POST /chat` when its `try` block throws. -/
theorem chat_of_body_error (env : ChatSurroundings) (st : ApiState)
    (sessionId message : Option String) (err : String)
    (h : (chatBody env st sessionId message).1 = .error err) :
    (chat env st sessionId message).1 = ⟨500, .error "Internal server error"⟩ := by
  unfold chat
  rcases hb : chatBody env st sessionId message with ⟨r, st1, es⟩
  rw [hb] at h
  simp only at h
  subst h
  rfl

/-- The `send-message` handler on a ready server sends the generic error exactly when its
`try` block throws, whatever the error is. -/
theorem sendMessage_of_thrown (env : Surroundings) (st : ServerState)
    (sessionId message err : String) (hinit : st.isRAGInitialized = true)
    (h : sendMessageThrown env st sessionId message = some err) :
    (sendMessage env st sessionId message).1 =
      [Emitted.botTyping sessionId true,
       Emitted.botResponse sessionId (.failure genericError (some env.tEmit)),
       Emitted.botTyping sessionId false] := by
  unfold sendMessageThrown at h
  rcases hstep : answerOrCompute env st message with ⟨r, sm, es⟩
  rw [hstep] at h
  cases r with
  | error e => exact sendMessage_of_step_error env st sessionId message e sm es hinit hstep
  | ok v =>
    obtain ⟨botResponse, cites⟩ := v
    simp only at h
    rcases hadd : sm.addMessage sessionId message botResponse env.uuid env.tEntry
      env.tActivity with ⟨a, sm1⟩
    rw [hadd] at h
    cases a with
    | error e =>
      exact sendMessage_of_addMessage_error env st sessionId message e botResponse cites sm
        sm1 es hinit hstep hadd
    | ok mid => simp at h

/-- The `send-message` handler on a ready server sends an answer when its `try` block does
not throw. -/
theorem sendMessage_of_not_thrown (env : Surroundings) (st : ServerState)
    (sessionId message : String) (hinit : st.isRAGInitialized = true)
    (h : sendMessageThrown env st sessionId message = none) :
    ∃ botResponse relevantArticles, (sendMessage env st sessionId message).1 =
      [Emitted.botTyping sessionId true,
       Emitted.botResponse sessionId (.answer botResponse relevantArticles env.tEmit),
       Emitted.botTyping sessionId false] := by
  unfold sendMessageThrown at h
  rcases hstep : answerOrCompute env st message with ⟨r, sm, es⟩
  rw [hstep] at h
  cases r with
  | error e => simp at h
  | ok v =>
    obtain ⟨botResponse, cites⟩ := v
    simp only at h
    rcases hadd : sm.addMessage sessionId message botResponse env.uuid env.tEntry
      env.tActivity with ⟨a, sm1⟩
    rw [hadd] at h
    cases a with
    | error e => simp at h
    | ok mid =>
      exact ⟨botResponse, cites, by simp [sendMessage, hinit, hstep, hadd]⟩

/-- The three `catch` blocks of the session endpoints of `server.js` answer with status 500
and the message of the error they catch. With the `MemorySessionManager` of `server.js` no
call of the three endpoints throws, so these blocks are not entered (`postSessionNew`,
`getSessionHistoryRoute` and `deleteSessionRoute` pass a returned value on). -/
theorem session_endpoint_catch_blocks (err : String) :
    sessionNewResponse (.error err) = ⟨500, .error err⟩ ∧
    sessionHistoryResponse (.error err) = ⟨500, .error err⟩ ∧
    sessionClearResponse (.error err) = ⟨500, .error err⟩ :=
  ⟨rfl, rfl, rfl⟩

/-- C15. No response sent to a caller depends on the text of an error raised by an underlying
service. In the `send-message` handler (ready server) every error thrown in the `try` block,
by the pipeline or by `addMessage`, yields the `bot-response` with the fixed generic text, so
the events sent for any two errors are equal up to the timestamp (and when nothing is thrown
an answer is sent). In `POST /chat` every error thrown in the `try` block yields status 500
with `Internal server error`, so the responses for any two errors are equal. In the three
session endpoints of `server.js` the calls into `MemorySessionManager` raise no error: create
answers 200 with the new id, fetch history answers 404 with a fixed text for a session that is
not in the store and 200 with the session otherwise, delete answers 200 with a fixed text. -/
theorem boundary_error_responses :
    (∀ (env : Surroundings) (st : ServerState) (sessionId message err : String),
      st.isRAGInitialized = true →
      sendMessageThrown env st sessionId message = some err →
      (sendMessage env st sessionId message).1 =
        [Emitted.botTyping sessionId true,
         Emitted.botResponse sessionId (.failure genericError (some env.tEmit)),
         Emitted.botTyping sessionId false]) ∧
    (∀ (env1 env2 : Surroundings) (st1 st2 : ServerState)
      (sessionId message1 message2 e1 e2 : String),
      st1.isRAGInitialized = true → st2.isRAGInitialized = true →
      sendMessageThrown env1 st1 sessionId message1 = some e1 →
      sendMessageThrown env2 st2 sessionId message2 = some e2 →
      (sendMessage env1 st1 sessionId message1).1.map Emitted.dropTimestamp =
        (sendMessage env2 st2 sessionId message2).1.map Emitted.dropTimestamp) ∧
    (∀ (env : Surroundings) (st : ServerState) (sessionId message : String),
      st.isRAGInitialized = true →
      sendMessageThrown env st sessionId message = none →
      ∃ botResponse relevantArticles, (sendMessage env st sessionId message).1 =
        [Emitted.botTyping sessionId true,
         Emitted.botResponse sessionId (.answer botResponse relevantArticles env.tEmit),
         Emitted.botTyping sessionId false]) ∧
    (∀ (env : ChatSurroundings) (st : ApiState) (sessionId message : Option String)
      (err : String), (chatBody env st sessionId message).1 = .error err →
      (chat env st sessionId message).1 = ⟨500, .error "Internal server error"⟩) ∧
    (∀ (env1 env2 : ChatSurroundings) (st1 st2 : ApiState)
      (sessionId1 message1 sessionId2 message2 : Option String) (e1 e2 : String),
      (chatBody env1 st1 sessionId1 message1).1 = .error e1 →
      (chatBody env2 st2 sessionId2 message2).1 = .error e2 →
      (chat env1 st1 sessionId1 message1).1 = (chat env2 st2 sessionId2 message2).1) ∧
    (∀ (st : ServerState) (uuid : String) (tCreated tActivity : Int),
      (postSessionNew st uuid tCreated tActivity).1 =
        ⟨200, .created uuid "Session created successfully"⟩) ∧
    (∀ (st : ServerState) (sessionId : String),
      st.sessionManager.getSessionHistory sessionId = none →
      getSessionHistoryRoute st sessionId = ⟨404, .error "Session not found"⟩) ∧
    (∀ (st : ServerState) (sessionId : String) (sd : SessionData),
      st.sessionManager.getSessionHistory sessionId = some sd →
      getSessionHistoryRoute st sessionId = ⟨200, .history sd⟩) ∧
    (∀ (st : ServerState) (sessionId : String),
      (deleteSessionRoute st sessionId).1 = ⟨200, .info "Session cleared successfully"⟩) := by
  refine ⟨?_, ?_, ?_, ?_, ?_, fun _ _ _ _ => rfl, ?_, ?_, fun _ _ => rfl⟩
  · intro env st sessionId message err hinit h
    exact sendMessage_of_thrown env st sessionId message err hinit h
  · intro env1 env2 st1 st2 sessionId message1 message2 e1 e2 hi1 hi2 h1 h2
    rw [sendMessage_of_thrown env1 st1 sessionId message1 e1 hi1 h1,
      sendMessage_of_thrown env2 st2 sessionId message2 e2 hi2 h2]
    rfl
  · intro env st sessionId message hinit h
    exact sendMessage_of_not_thrown env st sessionId message hinit h
  · intro env st sessionId message err h
    exact chat_of_body_error env st sessionId message err h
  · intro env1 env2 st1 st2 sessionId1 message1 sessionId2 message2 e1 e2 h1 h2
    rw [chat_of_body_error env1 st1 sessionId1 message1 e1 h1,
      chat_of_body_error env2 st2 sessionId2 message2 e2 h2]
  · intro st sessionId hget
    unfold getSessionHistoryRoute
    rw [hget]
    rfl
  · intro st sessionId sd hget
    unfold getSessionHistoryRoute
    rw [hget]
    rfl

/-- C15 at concrete runs. In `send-message` the vector search fails in one run and the
session is unknown in another: the two runs send the same events. In `POST /chat` the session
is unknown. The history endpoint answers 200 for the session `s1` and 404 for `s2`. -/
theorem boundary_error_responses_witness :
    (sendMessage { sampleSurroundings with services := servicesFailingAt 1 }
        (sampleState "cached answer") "s2" "News?").1.map Emitted.dropTimestamp =
      (sendMessage sampleSurroundings (sampleState "cached answer") "s2"
        "Hello ").1.map Emitted.dropTimestamp ∧
    (chat sampleChatSurroundings sampleApiState (some "s2") (some "Hello ")).1 =
      ⟨500, .error "Internal server error"⟩ ∧
    getSessionHistoryRoute (sampleState "cached answer") "s1" =
      ⟨200, .history { sessionId := "s1", createdAt := 0, lastActivity := 0,
                       messages := [] }⟩ ∧
    getSessionHistoryRoute (sampleState "cached answer") "s2" =
      ⟨404, .error "Session not found"⟩ :=
  ⟨boundary_error_responses.2.1 { sampleSurroundings with services := servicesFailingAt 1 }
      sampleSurroundings (sampleState "cached answer") (sampleState "cached answer") "s2"
      "News?" "Hello " "service unavailable" "Session not found" rfl rfl (by decide)
      (by decide),
   boundary_error_responses.2.2.2.1 sampleChatSurroundings sampleApiState (some "s2")
      (some "Hello ") "Session not found" rfl,
   boundary_error_responses.2.2.2.2.2.2.2.1 (sampleState "cached answer") "s1" _ (by decide),
   boundary_error_responses.2.2.2.2.2.2.1 (sampleState "cached answer") "s2" (by decide)⟩

/-! ## Cache write before the session check -/

/-- The `send-message` handler on a cache miss, with a successful pipeline run and a
`sessionId` that is not in the store: all three services are called, the answer is cached, and
then `addMessage` throws. -/
theorem sendMessage_miss_unknown_session (env : Surroundings) (st : ServerState)
    (sessionId message response : String) (embs : List Embedding) (found : List Article)
    (hinit : st.isRAGInitialized = true) (hpipe : st.pipelineInitialized = true)
    (hmiss : truthy (st.sessionManager.getCachedResponse
      (messageHash env.md5hex env.toLowerCase message) env.tLookup) = none)
    (hsess : st.sessionManager.getSessionHistory sessionId = none)
    (h1 : env.services.createEmbeddings [message] = .ok embs)
    (h2 : env.services.searchSimilar embs.head? 5 = .ok found)
    (h3 : env.services.generateContent
      (buildPrompt message (buildContext (groundingArticles (uniqueByTitle found)))) =
        .ok response) :
    sendMessage env st sessionId message =
      ([Emitted.botTyping sessionId true,
        Emitted.botResponse sessionId (.failure genericError (some env.tEmit)),
        Emitted.botTyping sessionId false],
       { st with
         sessionManager := st.sessionManager.cacheResponse
           (messageHash env.md5hex env.toLowerCase message) response env.tCache },
       [Effect.getCachedResponse (messageHash env.md5hex env.toLowerCase message),
        Effect.createEmbeddings [message], Effect.searchSimilar embs.head? 5,
        Effect.generateContent
          (buildPrompt message (buildContext (groundingArticles (uniqueByTitle found)))),
        Effect.cacheResponse (messageHash env.md5hex env.toLowerCase message) response,
        Effect.addMessage sessionId message response]) := by
  have hq := processQuery_ok env.services message embs found response h1 h2 h3
  have hadd := MemorySessionManager.addMessage_of_get_none
    (st.sessionManager.cacheResponse (messageHash env.md5hex env.toLowerCase message)
      response env.tCache) sessionId message response env.uuid env.tEntry env.tActivity hsess
  cases st with
  | mk ready pipelineReady sm =>
    simp only at hinit hpipe hmiss hadd
    subst hinit
    subst hpipe
    simp [sendMessage, answerOrCompute, hmiss, hq, hadd]

/-- A Redis-backed cache entry is returned by `getCachedResponse` until it expires. -/
theorem SessionManager.redis_cache_hit_until_expiry (self : SessionManager)
    (h r : String) (t0 t : Int) (ht : t < t0 + 1800 * 1000) :
    (self.cacheResponse h r t0 none).2.getCachedResponse h t none = .ok (some r) := by
  have ht' : t < t0 + 1800000 := by omega
  simp [SessionManager.cacheResponse, SessionManager.getCachedResponse, SessionManager.live,
    JSMap.get_set_self, ht']

/-- The handler of `POST /chat` on a cache miss, with a successful pipeline run, no Redis
command failing and a `sessionId` whose key is absent or expired: all three services are
called, the answer is cached, and then `addMessage` throws. -/
theorem chat_miss_unknown_session (env : ChatSurroundings) (st : ApiState)
    (sessionId message response : String) (embs : List Embedding) (found : List Article)
    (hsid : sessionId ≠ "") (hmsg : message ≠ "")
    (hinit : st.isRAGInitialized = true) (hpipe : st.pipelineInitialized = true)
    (hf1 : env.faultLookup = none) (hf2 : env.faultCache = none)
    (hf3 : env.faultSessionGet = none)
    (hmiss : truthy (SessionManager.live (st.sessionManager.cacheKeys.get
      (messageHash env.md5hex env.toLowerCase message)) env.tLookup) = none)
    (hsess : SessionManager.live (st.sessionManager.sessionKeys.get sessionId)
      env.tSessionGet = none)
    (h1 : env.services.createEmbeddings [message] = .ok embs)
    (h2 : env.services.searchSimilar embs.head? 5 = .ok found)
    (h3 : env.services.generateContent
      (buildPrompt message (buildContext (groundingArticles (uniqueByTitle found)))) =
        .ok response) :
    chat env st (some sessionId) (some message) =
      (⟨500, .error "Internal server error"⟩,
       { st with
         sessionManager := (st.sessionManager.cacheResponse
           (messageHash env.md5hex env.toLowerCase message) response env.tCache none).2 },
       [Effect.getCachedResponse (messageHash env.md5hex env.toLowerCase message),
        Effect.createEmbeddings [message], Effect.searchSimilar embs.head? 5,
        Effect.generateContent
          (buildPrompt message (buildContext (groundingArticles (uniqueByTitle found)))),
        Effect.cacheResponse (messageHash env.md5hex env.toLowerCase message) response,
        Effect.addMessage sessionId message response]) := by
  have hq := processQuery_ok env.services message embs found response h1 h2 h3
  cases st with
  | mk ready pipelineReady sm =>
    simp only at hinit hpipe hmiss hsess
    subst hinit
    subst hpipe
    simp [chat, chatBody, chatAnswerOrCompute, truthy_some_of_ne, hsid, hmsg, hf1, hf2, hf3,
      SessionManager.getCachedResponse, SessionManager.cacheResponse,
      SessionManager.addMessage, hmiss, hq, hsess]

/-- C16. In both query handlers the response cache is written before the session is looked
up. For every query on a cache miss (ready server) whose pipeline run succeeds with answer
`response` and whose `sessionId` is not in the session store: the handler performs, in this
order, the cache lookup, the embedding call, the vector search, the generation call, the cache
write and the `addMessage` call; `addMessage` fails and the generic error is sent; the session
store is unchanged and the cache holds the new entry, so that a later lookup of the same hash
within the 30 minutes returns `response`, and, `response` being non-empty, a later identical
query to the `send-message` handler within this time calls no service. The first part is the
`send-message` handler of `server.js`, the second `POST /chat` of `routes/api.js` on the Redis
store (no Redis command failing). -/
theorem cache_written_before_session_check :
    (∀ (env : Surroundings) (st : ServerState) (sessionId message response : String)
      (embs : List Embedding) (found : List Article),
      st.isRAGInitialized = true → st.pipelineInitialized = true →
      truthy (st.sessionManager.getCachedResponse
        (messageHash env.md5hex env.toLowerCase message) env.tLookup) = none →
      st.sessionManager.getSessionHistory sessionId = none →
      env.services.createEmbeddings [message] = .ok embs →
      env.services.searchSimilar embs.head? 5 = .ok found →
      env.services.generateContent
        (buildPrompt message (buildContext (groundingArticles (uniqueByTitle found)))) =
          .ok response →
      sendMessage env st sessionId message =
        ([Emitted.botTyping sessionId true,
          Emitted.botResponse sessionId (.failure genericError (some env.tEmit)),
          Emitted.botTyping sessionId false],
         { st with
           sessionManager := st.sessionManager.cacheResponse
             (messageHash env.md5hex env.toLowerCase message) response env.tCache },
         [Effect.getCachedResponse (messageHash env.md5hex env.toLowerCase message),
          Effect.createEmbeddings [message], Effect.searchSimilar embs.head? 5,
          Effect.generateContent
            (buildPrompt message (buildContext (groundingArticles (uniqueByTitle found)))),
          Effect.cacheResponse (messageHash env.md5hex env.toLowerCase message) response,
          Effect.addMessage sessionId message response]) ∧
      (sendMessage env st sessionId message).2.1.sessionManager.sessions =
        st.sessionManager.sessions ∧
      (sendMessage env st sessionId message).2.1.sessionManager.cache.get
          (messageHash env.md5hex env.toLowerCase message) =
        some { response := response, timestamp := env.tCache } ∧
      (∀ t : Int, t - env.tCache < 1800000 →
        (sendMessage env st sessionId message).2.1.sessionManager.getCachedResponse
          (messageHash env.md5hex env.toLowerCase message) t = some response) ∧
      (response ≠ "" → ∀ (env' : Surroundings) (sessionId' message' : String),
        messageHash env'.md5hex env'.toLowerCase message' =
          messageHash env.md5hex env.toLowerCase message →
        env'.tLookup - env.tCache < 1800000 →
        ∀ e ∈ (sendMessage env' (sendMessage env st sessionId message).2.1 sessionId'
          message').2.2, e.isServiceCall = false)) ∧
    (∀ (env : ChatSurroundings) (st : ApiState) (sessionId message response : String)
      (embs : List Embedding) (found : List Article),
      sessionId ≠ "" → message ≠ "" →
      st.isRAGInitialized = true → st.pipelineInitialized = true →
      env.faultLookup = none → env.faultCache = none → env.faultSessionGet = none →
      truthy (SessionManager.live (st.sessionManager.cacheKeys.get
        (messageHash env.md5hex env.toLowerCase message)) env.tLookup) = none →
      SessionManager.live (st.sessionManager.sessionKeys.get sessionId)
        env.tSessionGet = none →
      env.services.createEmbeddings [message] = .ok embs →
      env.services.searchSimilar embs.head? 5 = .ok found →
      env.services.generateContent
        (buildPrompt message (buildContext (groundingArticles (uniqueByTitle found)))) =
          .ok response →
      chat env st (some sessionId) (some message) =
        (⟨500, .error "Internal server error"⟩,
         { st with
           sessionManager := (st.sessionManager.cacheResponse
             (messageHash env.md5hex env.toLowerCase message) response env.tCache none).2 },
         [Effect.getCachedResponse (messageHash env.md5hex env.toLowerCase message),
          Effect.createEmbeddings [message], Effect.searchSimilar embs.head? 5,
          Effect.generateContent
            (buildPrompt message (buildContext (groundingArticles (uniqueByTitle found)))),
          Effect.cacheResponse (messageHash env.md5hex env.toLowerCase message) response,
          Effect.addMessage sessionId message response]) ∧
      (chat env st (some sessionId) (some message)).2.1.sessionManager.sessionKeys =
        st.sessionManager.sessionKeys ∧
      (∀ t : Int, t < env.tCache + 1800 * 1000 →
        (chat env st (some sessionId) (some message)).2.1.sessionManager.getCachedResponse
          (messageHash env.md5hex env.toLowerCase message) t none = .ok (some response))) := by
  constructor
  · intro env st sessionId message response embs found hinit hpipe hmiss hsess h1 h2 h3
    have hrun := sendMessage_miss_unknown_session env st sessionId message response embs
      found hinit hpipe hmiss hsess h1 h2 h3
    have hget := MemorySessionManager.cache_get_cacheResponse_self st.sessionManager
      (messageHash env.md5hex env.toLowerCase message) response env.tCache
    rw [hrun]
    refine ⟨rfl, rfl, ?_, fun t ht => ?_, fun hr env' sessionId' message' hh hfresh => ?_⟩
    · show (st.sessionManager.cacheResponse _ response env.tCache).cache.get _ = _
      exact hget
    · show (st.sessionManager.cacheResponse _ response env.tCache).getCachedResponse _ t = _
      rw [MemorySessionManager.getCachedResponse_of_get _ _ response env.tCache t hget,
        if_pos ht]
    · exact (sendMessage_on_cache_hit env'
        { st with
          sessionManager := st.sessionManager.cacheResponse
            (messageHash env.md5hex env.toLowerCase message) response env.tCache }
        sessionId' message' response env.tCache hinit
        (by rw [hh]; exact hget) hfresh hr).2.1
  · intro env st sessionId message response embs found hsid hmsg hinit hpipe hf1 hf2 hf3
      hmiss hsess h1 h2 h3
    rw [chat_miss_unknown_session env st sessionId message response embs found hsid hmsg
      hinit hpipe hf1 hf2 hf3 hmiss hsess h1 h2 h3]
    refine ⟨rfl, ?_, fun t ht => ?_⟩
    · simp [SessionManager.cacheResponse]
    · exact SessionManager.redis_cache_hit_until_expiry st.sessionManager _
        response env.tCache t ht

/-- C16 at concrete runs of the two handlers: the message `News?` (respectively `Hello `) is
not cached, the services answer, and the session `s2` does not exist. -/
theorem cache_written_before_session_check_witness :
    (sendMessage sampleSurroundings (sampleState "cached answer") "s2"
        "News?").2.1.sessionManager.cache.entries =
      [("md5:hello", { response := "cached answer", timestamp := 50 }),
       ("md5:news?", { response := "generated answer", timestamp := 110 })] ∧
    (sendMessage sampleSurroundings (sampleState "cached answer") "s2" "News?").1 =
      [Emitted.botTyping "s2" true,
       Emitted.botResponse "s2" (.failure genericError (some 130)),
       Emitted.botTyping "s2" false] ∧
    (chat sampleChatSurroundings sampleApiState (some "s2") (some "Hello ")).1 =
      ⟨500, .error "Internal server error"⟩ ∧
    (chat sampleChatSurroundings sampleApiState (some "s2")
        (some "Hello ")).2.1.sessionManager.cacheKeys.entries =
      [("md5:hello", { value := "generated answer", expiresAt := 1800110 })] :=
  have hs := (cache_written_before_session_check.1 sampleSurroundings
    (sampleState "cached answer") "s2" "News?" "generated answer" [[1, 2, 3]] [sampleArticle]
    rfl rfl (by decide) (by decide) rfl rfl rfl).1
  have hc := (cache_written_before_session_check.2 sampleChatSurroundings sampleApiState
    "s2" "Hello " "generated answer" [[1, 2, 3]] [sampleArticle]
    (by decide) (by decide) rfl rfl rfl rfl rfl (by decide) (by decide) rfl rfl rfl).1
  ⟨by rw [hs]; decide, by rw [hs]; rfl, by rw [hc], by rw [hc]; decide⟩

end RagChatbot
